import Mathlib

/-!
# diveclog: dive list and dive info presenters

A shallow embedding of `divelist.c`, `info.c` and the error notice of
`gtk-gui.c`.

Conventions of the embedding

* C `int` values are integers (`Int`); division and remainder truncate
  towards zero (`Int.tdiv`, `Int.tmod`).  The sums and differences whose
  operands come from a record or from `struct tm` and may be any `int`
  (`depth + 49`, `start - end`, `tm_year + 1900`) are reduced to the 32 bits
  of an `int` (`wrap_int`), and so is a `time_t` kept in an `int` column; the
  counter `error_count` is read on the integers.  `unsigned int` values are
  reduced modulo `2 ^ 32`.
* A finite C `double` is the rational number it denotes (`ℚ`).  Every
  floating-point operation is the exact operation followed by the rounding to
  the nearest `double` (`round_to_double`: 53 significant bits, ties to the
  even significand), each operation on its own, without wider intermediate
  results and without fused multiply-add.
* C strings are `String`s, one `Char` per C `char`; a `char *` that may be
  `NULL` is an `Option String`.
* `snprintf (buffer, size, ...)` keeps the first `size - 1` characters of the
  formatted text.
* A cell data function returns `some text` when it sets the renderer's text
  and `none` when it returns without setting it.
* `dive.h` is not part of the sources: the record layout is the one the field
  accesses of `divelist.c` and `info.c` use, and its conversion helpers and
  the number of cylinder slots are parameters.
* A `struct dive *` is an address (`Nat`), `none` for `NULL`; the record
  collection maps the addresses it holds to records.
* A function that reads a variable before any assignment, or a record through
  `NULL`, yields `none`.
-/

namespace Diveclog

/-! ## Data model (the fields of `struct dive` the two files touch) -/

structure volume_t where
  mliter : Int
deriving DecidableEq, Repr

structure pressure_t where
  mbar : Int
deriving DecidableEq, Repr

structure depth_t where
  mm : Int
deriving DecidableEq, Repr

structure duration_t where
  seconds : Int
deriving DecidableEq, Repr

structure temperature_t where
  mkelvin : Int
deriving DecidableEq, Repr

structure gasmix_t where
  o2 : Int
deriving DecidableEq, Repr

structure cylinder_type_t where
  size : volume_t
  description : Option String
deriving DecidableEq, Repr

/-- One cylinder slot; `end_` is the C field `end`. -/
structure cylinder_t where
  type : cylinder_type_t
  gasmix : gasmix_t
  start : pressure_t
  end_ : pressure_t
deriving DecidableEq, Repr

/-- The dive record; `cylinder` is the array of `MAX_CYLINDERS` slots. -/
structure dive where
  number : Int
  when : Int
  location : Option String
  notes : Option String
  divemaster : Option String
  buddy : Option String
  maxdepth : Int
  meandepth : depth_t
  duration : duration_t
  watertemp : temperature_t
  cylinder : List cylinder_t
deriving DecidableEq, Repr

/-! ## C library helpers -/

/-- The least `int`. -/
def INT_MIN : Int := -2147483648

/-- The `int` that holds the low 32 bits of the integer `n` in two's
complement: the value the machine leaves for an `int` operation whose result on
the integers is `n`, and for a wider integer stored in an `int`. -/
def wrap_int (n : Int) : Int :=
  (n + 2147483648) % 4294967296 - 2147483648

/-- Conversion of a finite `double` to `int`: the fractional part is discarded.
When the integer part is outside the range of `int` C defines no result; the
value given here is `INT_MIN`, which the conversion instruction of x86
delivers (for an infinity as well). -/
def double_to_int (q : ℚ) : Int :=
  if -2147483649 < q ∧ q < 2147483648 then
    if 0 ≤ q then Int.floor q else Int.ceil q
  else INT_MIN

/-- Text of `%d`. -/
def fmt_d (n : Int) : String :=
  if n < 0 then "-" ++ Nat.repr n.natAbs else Nat.repr n.natAbs

/-- Text of `%0wd`: sign first, then zeros up to the width `w`, then the digits. -/
def fmt_0d (w : Nat) (n : Int) : String :=
  let digits := Nat.repr n.natAbs
  if n < 0 then
    "-" ++ String.mk (List.replicate (w - 1 - digits.length) '0') ++ digits
  else
    String.mk (List.replicate (w - digits.length) '0') ++ digits

/-- Text that `snprintf` leaves in a buffer of `size` bytes. -/
def snprintf (size : Nat) (text : String) : String :=
  String.mk (text.data.take (size - 1))

/-- Value `snprintf` returns: the length of the whole formatted text. -/
def snprintf_len (text : String) : Nat :=
  text.length

/-- Reading of an `unsigned int` through `%d`, that is as an `int`. -/
def int_of_unsigned (u : Nat) : Int :=
  if u % 4294967296 < 2147483648 then ((u % 4294967296 : Nat) : Int)
  else ((u % 4294967296 : Nat) : Int) - 4294967296

/-- Rounding of a rational to an integer, ties to the even neighbour. -/
def round_half_even (q : ℚ) : Int :=
  let f := Int.floor q
  let r := q - (f : ℚ)
  if r < 1 / 2 then f
  else if 1 / 2 < r then f + 1
  else if f % 2 = 0 then f else f + 1

/-- Rounding of an exact value to the nearest `double`: the significand is cut
to 53 bits, ties go to the even significand.  The exponent range of the format
is left out: the quantities of the program, formed from `int` values by a
handful of operations, stay far inside it. -/
def round_to_double (q : ℚ) : ℚ :=
  if q = 0 then 0
  else
    let e := Int.log 2 |q| - 52
    (round_half_even (q / (2 : ℚ) ^ e) : ℚ) * (2 : ℚ) ^ e

/-- Sum of two `double`s. -/
def double_add (a b : ℚ) : ℚ :=
  round_to_double (a + b)

/-- Product of two `double`s. -/
def double_mul (a b : ℚ) : ℚ :=
  round_to_double (a * b)

/-- Quotient of two `double`s, the divisor not zero. -/
def double_div (a b : ℚ) : ℚ :=
  round_to_double (a / b)

/-- Text of `%W.Pf` for the `double` of value `q`: the decimal expansion of `q`
rounded to `prec` decimals (ties, which only a `double` lying exactly half-way
meets, to the even digit), padded with blanks on the left up to `width`
characters. -/
def fmt_f (width prec : Nat) (q : ℚ) : String :=
  let scaled := (round_half_even (|q| * (10 : ℚ) ^ prec)).natAbs
  let int_part := Nat.repr (scaled / 10 ^ prec)
  let frac_digits := Nat.repr (scaled % 10 ^ prec)
  let frac := String.mk (List.replicate (prec - frac_digits.length) '0') ++ frac_digits
  let body := (if q < 0 then "-" else "") ++ int_part ++
    (if prec = 0 then "" else "." ++ frac)
  String.mk (List.replicate (width - body.length) ' ') ++ body

/-- Comparison of two character sequences in the manner of `strcmp`: the sign
of the first difference, the shorter sequence first. -/
def strcmp_chars : List Char → List Char → Int
  | [], [] => 0
  | [], _ :: _ => -1
  | _ :: _, [] => 1
  | a :: as, b :: bs =>
    if a = b then strcmp_chars as bs
    else if a.toNat < b.toNat then -1 else 1

def strcmp (a b : String) : Int :=
  strcmp_chars a.data b.data

/-- Broken-down time, the fields of `struct tm` the sources read. -/
structure tm where
  tm_min : Int
  tm_hour : Int
  tm_mday : Int
  tm_mon : Int
  tm_year : Int
  tm_wday : Int
deriving DecidableEq, Repr

/-- Seconds since 1970-01-01 00:00 UTC to the proleptic Gregorian calendar
date and the time of day. -/
def broken_down_time (t : Int) : tm :=
  let days := t / 86400
  let rem := t % 86400
  let z := days + 719468
  let era := z / 146097
  let doe := z % 146097
  let yoe := (doe - doe / 1460 + doe / 36524 - doe / 146096) / 365
  let doy := doe - (365 * yoe + yoe / 4 - yoe / 100)
  let mp := (5 * doy + 2) / 153
  let d := doy - (153 * mp + 2) / 5 + 1
  let m := if mp < 10 then mp + 3 else mp - 9
  let y := yoe + era * 400 + (if m ≤ 2 then 1 else 0)
  { tm_min := rem % 3600 / 60
    tm_hour := rem / 3600
    tm_mday := d
    tm_mon := m - 1
    tm_year := y - 1900
    tm_wday := (days + 4) % 7 }

/-- The C library's `gmtime`: the broken-down time, or `NULL` (`none`) when the
year does not fit the `int` field `tm_year`. -/
def gmtime (t : Int) : Option tm :=
  let r := broken_down_time t
  if -2147483648 ≤ r.tm_year ∧ r.tm_year ≤ 2147483647 then some r else none

/-- Value of a decimal digit character. -/
def digit_value (c : Char) : Nat :=
  c.toNat - 48

/-- Reading a decimal numeral back. -/
def read_decimal (l : List Char) : Nat :=
  l.foldl (fun acc c => acc * 10 + digit_value c) 0

/-! ## divelist.c -/

inductive volume_unit where
  | LITER
  | CUFT
  | other
deriving DecidableEq, Repr

inductive length_unit where
  | METERS
  | FEET
  | other
deriving DecidableEq, Repr

inductive temperature_unit where
  | KELVIN
  | CELSIUS
  | FAHRENHEIT
  | other
deriving DecidableEq, Repr

/-- Body of the `for` loop of `calculate_airuse`, over the remaining slots.  The
pressure difference is an `int`; quotient, product and sum are `double`
operations. -/
def calculate_airuse_loop : List cylinder_t → ℚ → ℚ
  | [], airuse => airuse
  | cyl :: rest, airuse =>
    let size := cyl.type.size.mliter
    if size = 0 then
      calculate_airuse_loop rest airuse
    else
      let kilo_atm : ℚ :=
        double_div ((wrap_int (cyl.start.mbar - cyl.end_.mbar) : Int) : ℚ) 1013250
      calculate_airuse_loop rest (double_add airuse (double_mul kilo_atm (size : ℚ)))

def calculate_airuse (d : dive) : ℚ :=
  calculate_airuse_loop d.cylinder 0

/-- The value stored through `val`.  With a mean pressure of zero the quotient
`airuse / pressure` is an infinity, which the product and the quotient formed
from it remain; its conversion to `int` is the one of `double_to_int` for a
value out of range. -/
def get_sac (d : dive) : Int :=
  let airuse := calculate_airuse d
  if airuse = 0 then 0
  else if d.duration.seconds = 0 then 0
  else
    let pressure : ℚ := double_add 1 (double_div (d.meandepth.mm : ℚ) 10000)
    if pressure = 0 then INT_MIN
    else
      let sac : ℚ :=
        double_div (double_mul (double_div airuse pressure) 60) (d.duration.seconds : ℚ)
      double_to_int (double_mul sac 1000)

/-- The cell text of the depth column; `mm_to_feet` is the helper of `dive.h`,
giving the value of the `double` it returns. -/
def depth_data_func (mm_to_feet : Int → ℚ) (length : length_unit) (depth : Int) :
    Option String :=
  let finish (integer frac : Int) : Option String :=
    let buffer := snprintf 40 (fmt_d integer)
    let len := snprintf_len (fmt_d integer)
    if 0 ≤ frac then
      some (buffer ++ snprintf (40 - len) ("." ++ fmt_d frac))
    else
      some buffer
  match length with
  | .METERS =>
    let depth := Int.tdiv (wrap_int (depth + 49)) 100
    let integer := Int.tdiv depth 10
    let frac := Int.tmod depth 10
    if integer < 20 then finish integer frac
    else finish integer (-1)
  | .FEET =>
    let integer := double_to_int (double_add (mm_to_feet depth) (1 / 2))
    finish integer (-1)
  | .other => none

def duration_data_func (sec : Nat) : Option String :=
  let sec := sec % 4294967296
  some (snprintf 16
    (fmt_d (int_of_unsigned (sec / 60)) ++ ":" ++ fmt_0d 2 (int_of_unsigned (sec % 60))))

/-- The cell text of the temperature column; `mkelvin_to_C` and `mkelvin_to_F`
are the helpers of `dive.h`, each giving the value of the `double` it returns. -/
def temperature_data_func (mkelvin_to_C mkelvin_to_F : Int → ℚ)
    (temperature : temperature_unit) (value : Int) : Option String :=
  let buffer := ""
  if value ≠ 0 then
    match temperature with
    | .CELSIUS => some (snprintf 80 (fmt_f 0 1 (mkelvin_to_C value)))
    | .FAHRENHEIT => some (snprintf 80 (fmt_f 0 1 (mkelvin_to_F value)))
    | _ => none
  else
    some buffer

def nitrox_data_func (value : Int) : Option String :=
  if value ≠ 0 then
    some (snprintf 80 (fmt_f 0 1 (double_div (value : ℚ) 10)))
  else
    some "air"

/-- The cell text of the SAC column.  For a volume unit that is neither `LITER`
nor `CUFT` the format is never assigned and nothing is defined: `none`. -/
def sac_data_func (volume : volume_unit) (value : Int) : Option String :=
  if value = 0 then some ""
  else
    let liters_per_cuft : ℚ := round_to_double (28317 / 1000)
    let sac : ℚ := double_div (value : ℚ) 1000
    match volume with
    | .LITER => some (snprintf 16 (fmt_f 4 1 sac))
    | .CUFT => some (snprintf 16 (fmt_f 4 2 (double_div sac liters_per_cuft)))
    | .other => none

def get_string (s : Option String) : String :=
  let s := match s with
    | none => ""
    | some s => s
  let len := s.length
  let len := if len > 40 then 40 else len
  String.mk (s.data.take len)

def get_location (d : dive) : String :=
  get_string d.location

/-- The description of slot 0 of the cylinder array. -/
def get_cylinder (d : dive) : String :=
  match d.cylinder with
  | [] => get_string none
  | cyl :: _ => get_string cyl.type.description

/-- The part of `struct DiveList` that is not a widget. -/
structure DiveList where
  changed : Int
deriving DecidableEq, Repr

def mark_divelist_changed (changed : Int) (_dive_list : DiveList) : DiveList :=
  { changed := changed }

def unsaved_changes (dive_list : DiveList) : Int :=
  dive_list.changed

/-! ## info.c -/

/-- The file-level state of `info.c`: the four changed flags, the text held by
the three entries and the notes buffer, and the title of the main window. -/
structure info_state where
  location_changed : Int
  notes_changed : Int
  divemaster_changed : Int
  buddy_changed : Int
  location : String
  buddy : String
  divemaster : String
  notes : String
  title : String
deriving DecidableEq, Repr

def text_changed (old : Option String) (new : String) : Int :=
  match old with
  | some o => if strcmp o new ≠ 0 then 1 else 0
  | none => if strcmp "" new ≠ 0 then 1 else 0

/-- The record after the flush and the dive list with its change flag.  Without
a record (`NULL`) nothing is read and nothing is written. -/
def flush_dive_info_changes (ui : info_state) (dive_list : DiveList) :
    Option dive → Option dive × DiveList
  | none => (none, dive_list)
  | some d =>
    let changed : Int := 0
    let r1 : dive × Int :=
      if ui.location_changed ≠ 0 then
        let old_text := d.location
        (({ d with location := some ui.location } : dive),
          if text_changed old_text ui.location ≠ 0 then 1 else changed)
      else (d, changed)
    let r2 : dive × Int :=
      if ui.divemaster_changed ≠ 0 then
        let old_text := r1.1.divemaster
        (({ r1.1 with divemaster := some ui.divemaster } : dive),
          if text_changed old_text ui.divemaster ≠ 0 then 1 else r1.2)
      else r1
    let r3 : dive × Int :=
      if ui.buddy_changed ≠ 0 then
        let old_text := r2.1.buddy
        (({ r2.1 with buddy := some ui.buddy } : dive),
          if text_changed old_text ui.buddy ≠ 0 then 1 else r2.2)
      else r2
    let r4 : dive × Int :=
      if ui.notes_changed ≠ 0 then
        let old_text := r3.1.notes
        (({ r3.1 with notes := some ui.notes } : dive),
          if text_changed old_text ui.notes ≠ 0 then 1 else r3.2)
      else r3
    (some r4.1, if r4.2 ≠ 0 then mark_divelist_changed 1 dive_list else dive_list)

/-- The text `SET_TEXT_ENTRY` puts into an entry. -/
def set_text_entry (d : Option dive) (field : dive → Option String) : String :=
  match d with
  | none => ""
  | some dive =>
    match field dive with
    | none => ""
    | some text => text

/-- The state after `show_dive_info`; `weekday` is the day-name helper of the
program.  Without a record the title part reads `dive->when` and
`dive->location` through the `NULL` pointer: `none`.  The date branch reads the
fields of `tm`: when `gmtime` returned `NULL` that is a read through `NULL` as
well, `none`; the location branch does not touch `tm`. -/
def show_dive_info (weekday : Int → String) (ui : info_state) :
    Option dive → Option info_state
  | none => none
  | some d =>
    let tm := gmtime d.when
    let text := match d.location with
      | none => ""
      | some l => l
    let buffer : Option String :=
      if text.data ≠ [] then
        some (snprintf 80 ("Dive #" ++ fmt_d d.number ++ " - " ++ text))
      else
        match tm with
        | none => none
        | some tm =>
          some (snprintf 80 ("Dive #" ++ fmt_d d.number ++ " - " ++ weekday tm.tm_wday ++ " " ++
            fmt_0d 2 (tm.tm_mon + 1) ++ "/" ++ fmt_0d 2 tm.tm_mday ++ "/" ++
            fmt_0d 4 (wrap_int (tm.tm_year + 1900)) ++ " at " ++ fmt_d tm.tm_hour ++ ":" ++
            fmt_0d 2 tm.tm_min))
    match buffer with
    | none => none
    | some buffer =>
      let text := if d.number = 0 then String.mk (buffer.data.drop 10) else buffer
      some { ui with
        title := text
        divemaster := set_text_entry (some d) (fun x => x.divemaster)
        buddy := set_text_entry (some d) (fun x => x.buddy)
        location := set_text_entry (some d) (fun x => x.location)
        notes := set_text_entry (some d) (fun x => x.notes) }

/-- The air use in the words of the description, in exact arithmetic: the sum,
over the cylinder slots whose size is not zero, of
`(start - end) / 1013250 * size`. -/
def airuse_sum (d : dive) : ℚ :=
  ((d.cylinder.filter (fun c => decide (c.type.size.mliter ≠ 0))).map
    (fun c => ((c.start.mbar - c.end_.mbar : Int) : ℚ) / 1013250 *
      (c.type.size.mliter : ℚ))).sum

/-- Truncation of a rational to an integer: the quotient of numerator by
denominator, rounded towards zero. -/
def truncate (q : ℚ) : Int :=
  Int.tdiv q.num q.den

/-- The consumption rate in the words of the description, in exact arithmetic:
`airuse / (1 + meandepth / 10000) * 60 / duration * 1000`. -/
def sac_exact (d : dive) : ℚ :=
  airuse_sum d / (1 + (d.meandepth.mm : ℚ) / 10000) * 60 / (d.duration.seconds : ℚ) * 1000

/-- The contribution of one cylinder slot in `double` arithmetic: the `int`
difference of the pressures divided by 1013250, the quotient rounded, times the
size, the product rounded. -/
def airuse_term (c : cylinder_t) : ℚ :=
  double_mul (double_div ((wrap_int (c.start.mbar - c.end_.mbar) : Int) : ℚ) 1013250)
    (c.type.size.mliter : ℚ)

/-- The air use in `double` arithmetic: the contributions of the slots whose
size is not zero, added up in slot order from 0, every partial sum rounded. -/
def airuse_rounded (d : dive) : ℚ :=
  (d.cylinder.filter (fun c => decide (c.type.size.mliter ≠ 0))).foldl
    (fun airuse c => double_add airuse (airuse_term c)) 0

/-- The consumption rate in `double` arithmetic: the operations of
`airuse / (1 + meandepth / 10000) * 60 / duration * 1000` from left to right,
every result rounded. -/
def sac_rounded (d : dive) : ℚ :=
  double_mul
    (double_div
      (double_mul
        (double_div (airuse_rounded d)
          (double_add 1 (double_div (d.meandepth.mm : ℚ) 10000)))
        60)
      (d.duration.seconds : ℚ))
    1000

/-! ## Concrete inputs -/

/-- A sample table of day names for `weekday`, used to evaluate `show_dive_info`
on concrete records. -/
def weekday_sample (wday : Int) : String :=
  if wday = 0 then "Sun" else if wday = 1 then "Mon" else if wday = 2 then "Tue"
  else if wday = 3 then "Wed" else if wday = 4 then "Thu" else if wday = 5 then "Fri"
  else "Sat"

/-- A dive of 1 January 1970, 00:00 UTC, number 5, with one cylinder and no
text fields. -/
def sample_dive : dive :=
  { number := 5
    when := 0
    location := none
    notes := none
    divemaster := none
    buddy := none
    maxdepth := 19000
    meandepth := { mm := 10000 }
    duration := { seconds := 1200 }
    watertemp := { mkelvin := 0 }
    cylinder :=
      [{ type := { size := { mliter := 2000 }, description := some "AL80" }
         gasmix := { o2 := 320 }
         start := { mbar := 200000 }
         end_ := { mbar := 50000 } }] }

/-- A form holding text in all four fields, every changed flag clear. -/
def sample_form : info_state :=
  { location_changed := 0
    notes_changed := 0
    divemaster_changed := 0
    buddy_changed := 0
    location := "Reef"
    buddy := "Ann"
    divemaster := "Bob"
    notes := "good visibility"
    title := "" }

/-- A location text of 80 characters. -/
def long_location : String :=
  String.mk (List.replicate 80 'a')

/-- The title in the words of the description for a dive without location:
month and day as plain numbers, no zero padding. -/
def title_plain_date (weekday : Int → String) (d : dive) : String :=
  let tm := broken_down_time d.when
  "Dive #" ++ fmt_d d.number ++ " - " ++ weekday tm.tm_wday ++ " " ++
    fmt_d (tm.tm_mon + 1) ++ "/" ++ fmt_d tm.tm_mday ++ "/" ++
    fmt_0d 4 (tm.tm_year + 1900) ++ " at " ++ fmt_d tm.tm_hour ++ ":" ++
    fmt_0d 2 tm.tm_min

/-- The title the code formats for a dive without location, before it is cut to
the buffer: month and day padded to two digits. -/
def title_padded_date (weekday : Int → String) (d : dive) : String :=
  let tm := broken_down_time d.when
  "Dive #" ++ fmt_d d.number ++ " - " ++ weekday tm.tm_wday ++ " " ++
    fmt_0d 2 (tm.tm_mon + 1) ++ "/" ++ fmt_0d 2 tm.tm_mday ++ "/" ++
    fmt_0d 4 (tm.tm_year + 1900) ++ " at " ++ fmt_d tm.tm_hour ++ ":" ++
    fmt_0d 2 tm.tm_min

/-- A text padded with blanks on the left up to `width` characters, the way a
minimum field width pads. -/
def pad_left (width : Nat) (body : String) : String :=
  String.mk (List.replicate (width - body.length) ' ') ++ body

/-! ## gtk-gui.c -/

/-- The error notice of `gtk-gui.c`: the info bars packed into `main_vbox`, each
given by the text of its label; `error_info_bar`, `NULL` or the position in
`main_vbox` of the bar it points to (`error_label` is the label of that bar);
and `error_count`. -/
structure error_state where
  main_vbox : List String
  error_info_bar : Option Nat
  error_count : Int
deriving DecidableEq, Repr

def GTK_RESPONSE_OK : Int := -5

/-- The response handler of the info bar `widget` (its position in `main_vbox`). -/
def on_info_bar_response (widget : Nat) (response : Int) (s : error_state) : error_state :=
  if response = GTK_RESPONSE_OK then
    { s with main_vbox := s.main_vbox.eraseIdx widget, error_info_bar := none }
  else
    s

/-- The argument is the message of the `GError`, `none` for `NULL`. -/
def report_error (error : Option String) (s : error_state) : error_state :=
  match error with
  | none => s
  | some message =>
    match s.error_info_bar with
    | none =>
      { main_vbox := s.main_vbox ++ [message]
        error_info_bar := some s.main_vbox.length
        error_count := 1 }
    | some bar =>
      let error_count := s.error_count + 1
      let buffer := snprintf 256 ("Failed to open " ++ fmt_d error_count ++ " files.")
      { s with
        error_count := error_count
        main_vbox := s.main_vbox.set bar buffer }

/-- The errors of a list passed to `report_error` one after the other with
nothing in between, as the loop of `file_open` does with the parse errors of
the chosen files. -/
def report_errors (errors : List String) (s : error_state) : error_state :=
  errors.foldl (fun st message => report_error (some message) st) s

/-! ## divelist.c: the list store -/

/-- One row of the list store, a field for each column of the `enum`; the
`int` columns carry the `int` the program reads from them. -/
structure row where
  DIVE_INDEX : Int
  DIVE_DATE : Int
  DIVE_DEPTH : Int
  DIVE_DURATION : Int
  DIVE_TEMPERATURE : Int
  DIVE_CYLINDER : Option String
  DIVE_NITROX : Int
  DIVE_SAC : Int
  DIVE_LOCATION : Option String
deriving DecidableEq, Repr

/-- The record collection `dive_table`: `dives` holds the pointers
`dive_table.dives[0 .. nr - 1]` as addresses, `mem` gives the record an address
points to. -/
structure dive_table_t where
  dives : List Nat
  mem : Nat → dive

/-- Modelled from the spec: the per-index lookup of the record collection
(`get_dive` of `dive.h`, absent from the sources): the pointer held at that
index, `NULL` for an index outside the collection. -/
def get_dive (dive_table : dive_table_t) (nr : Int) : Option Nat :=
  if nr < 0 then none else dive_table.dives[nr.toNat]?

/-- The unit settings `output_units` the dive list reads. -/
structure units where
  length : length_unit
  volume : volume_unit
  temperature : temperature_unit
deriving DecidableEq, Repr

/-- The widget side of `struct DiveList`: the rows of `model`, the selected row
of `tree_view` (its position, `none` when nothing is selected), the column
objects the fields `depth` and `temperature` point to (by name), and the title
of every column object. -/
structure dive_list_view where
  model : List row
  selection : Option Nat
  depth : String
  temperature : String
  title : String → String

def fill_one_dive (d : dive) (r : row) : row :=
  let cylinder := get_cylinder d
  let location := get_location d
  let sac := get_sac d
  { r with
    DIVE_LOCATION := some location
    DIVE_CYLINDER := some cylinder
    DIVE_SAC := sac }

/-- The callback of the row walk: the row after the call and the value returned,
`TRUE` stopping the walk.  `data` is the record pointer handed along, `none` for
`NULL`. -/
def set_one_dive (dive_table : dive_table_t) (data : Option Nat) (r : row) : row × Bool :=
  match get_dive dive_table r.DIVE_INDEX with
  | none => (r, true)
  | some p =>
    if data ≠ none ∧ some p ≠ data then (r, false)
    else (fill_one_dive (dive_table.mem p) r, decide (some p = data))

/-- The walk over the rows in order, until the callback returns `TRUE`. -/
def gtk_tree_model_foreach (func : row → row × Bool) : List row → List row
  | [] => []
  | r :: rest =>
    if (func r).2 then (func r).1 :: rest
    else (func r).1 :: gtk_tree_model_foreach func rest

def flush_divelist (dive_table : dive_table_t) (data : Option Nat) (v : dive_list_view) :
    dive_list_view :=
  { v with model := gtk_tree_model_foreach (set_one_dive dive_table data) v.model }

/-- The view after `update_dive_list_units`; `UTF8_DEGREE` is the macro of the
missing header.  With a length unit that is neither `METERS` nor `FEET` the
variable `unit` is read before any assignment: `none`. -/
def update_dive_list_units (UTF8_DEGREE : String) (output_units : units)
    (dive_table : dive_table_t) (v : dive_list_view) : Option dive_list_view :=
  let unit0 : Option String :=
    match output_units.length with
    | .METERS => some "m"
    | .FEET => some "ft"
    | .other => none
  match unit0 with
  | none => none
  | some unit1 =>
    let title1 := Function.update v.title v.depth unit1
    let unit2 : String :=
      match output_units.temperature with
      | .CELSIUS => UTF8_DEGREE ++ "C"
      | .FAHRENHEIT => UTF8_DEGREE ++ "F"
      | .KELVIN => "Kelvin"
      | .other => unit1
    let title2 := Function.update title1 v.temperature unit2
    some { v with
      title := title2
      model := gtk_tree_model_foreach (set_one_dive dive_table none) v.model }

/-- The row `fill_dive_list` appends for the record `d` at index `i`.  The date
column is read back as an `int` (`date_data_func`), so of the `time_t` handed
to it the row carries the low 32 bits. -/
def fill_dive_list_row (i : Int) (d : dive) : row :=
  { DIVE_INDEX := i
    DIVE_DATE := wrap_int d.when
    DIVE_DEPTH := d.maxdepth
    DIVE_DURATION := d.duration.seconds
    DIVE_LOCATION := some "location"
    DIVE_TEMPERATURE := d.watertemp.mkelvin
    DIVE_NITROX :=
      match d.cylinder with
      | [] => 0
      | cyl :: _ => cyl.gasmix.o2
    DIVE_SAC := 0
    DIVE_CYLINDER := none }

/-- The `for` loop of `fill_dive_list` from index `i` on, over the pointers
still to visit. -/
def fill_dive_list_loop (mem : Nat → dive) : List Nat → Int → List row → List row
  | [], _, store => store
  | p :: rest, i, store =>
    fill_dive_list_loop mem rest (i + 1) (store ++ [fill_dive_list_row i (mem p)])

def fill_dive_list (UTF8_DEGREE : String) (output_units : units)
    (dive_table : dive_table_t) (v : dive_list_view) : Option dive_list_view :=
  let store := fill_dive_list_loop dive_table.mem dive_table.dives 0 v.model
  match update_dive_list_units UTF8_DEGREE output_units dive_table { v with model := store } with
  | none => none
  | some v1 =>
    match v1.model with
    | [] => some v1
    | _ :: _ => some { v1 with selection := some 0 }

/-- Clearing the store removes the rows and with them the selection; the
repaint of the profile at the end does not touch the list store. -/
def dive_list_update_dives (UTF8_DEGREE : String) (output_units : units)
    (dive_table : dive_table_t) (v : dive_list_view) : Option dive_list_view :=
  fill_dive_list UTF8_DEGREE output_units dive_table { v with model := [], selection := none }

/-- A collection of two records at the addresses 100 and 200. -/
def sample_table : dive_table_t :=
  { dives := [100, 200]
    mem := fun p => if p = 100 then sample_dive else { sample_dive with number := 6, when := 86400 } }

/-- A view with one stale row, the depth field pointing to the date column. -/
def sample_view : dive_list_view :=
  { model := [fill_dive_list_row 7 sample_dive]
    selection := none
    depth := "dive_list_date_column"
    temperature := "dive_list_temperature_column"
    title := fun _ => "" }

/-- Metric settings. -/
def sample_units : units :=
  { length := length_unit.METERS
    volume := volume_unit.LITER
    temperature := temperature_unit.CELSIUS }

/-- A dive of 1200 s at a mean depth of 10 m with one cylinder of 13510 ml
breathed down from 150000 to 84000 mbar: in exact arithmetic 880 litres of air
and 22000 ml/min. -/
def rounding_dive : dive :=
  { sample_dive with
    cylinder :=
      [{ type := { size := { mliter := 13510 }, description := none }
         gasmix := { o2 := 210 }
         start := { mbar := 150000 }
         end_ := { mbar := 84000 } }] }

/-- The sample dive at a mean depth of -10000 mm, where the mean pressure
`1 + meandepth / 10000` is zero. -/
def zero_pressure_dive : dive :=
  { sample_dive with meandepth := { mm := -10000 } }

/-- The sample dive with a cylinder of 2147483647 ml breathed down from
2147483647 to 0 mbar: a consumption rate beyond the range of `int`. -/
def overflow_dive : dive :=
  { sample_dive with
    cylinder :=
      [{ type := { size := { mliter := 2147483647 }, description := none }
         gasmix := { o2 := 210 }
         start := { mbar := 2147483647 }
         end_ := { mbar := 0 } }] }

/-- A collection of one record, dated 19 January 2038, 03:14:08 UTC, the first
second that is not an `int`. -/
def late_table : dive_table_t :=
  { dives := [100]
    mem := fun _ => { sample_dive with when := 2147483648 } }

/-! # Theorems -/

/-! ## Decimal numerals -/

theorem toDigitsCore_append (fuel : Nat) : ∀ (n : Nat) (ds : List Char),
    Nat.toDigitsCore 10 fuel n ds = Nat.toDigitsCore 10 fuel n [] ++ ds := by
  induction fuel with
  | zero => intro n ds; simp [Nat.toDigitsCore]
  | succ f ih =>
    intro n ds
    simp only [Nat.toDigitsCore]
    by_cases h : n / 10 = 0
    · simp [h]
    · simp only [h, if_false]
      rw [ih (n / 10) (Nat.digitChar (n % 10) :: ds), ih (n / 10) [Nat.digitChar (n % 10)]]
      simp

theorem toDigitsCore_fuel (f1 : Nat) : ∀ (f2 n : Nat), n < f1 → n < f2 →
    Nat.toDigitsCore 10 f1 n [] = Nat.toDigitsCore 10 f2 n [] := by
  induction f1 with
  | zero => intro f2 n h; omega
  | succ f ih =>
    intro f2 n h1 h2
    cases f2 with
    | zero => omega
    | succ g =>
      simp only [Nat.toDigitsCore]
      by_cases h : n / 10 = 0
      · simp [h]
      · simp only [h, if_false]
        rw [toDigitsCore_append f, toDigitsCore_append g]
        rw [ih g (n / 10) (by omega) (by omega)]

theorem toDigits_small (n : Nat) (h : n < 10) :
    Nat.toDigits 10 n = [Nat.digitChar n] := by
  have h0 : n / 10 = 0 := by omega
  have h1 : n % 10 = n := by omega
  simp [Nat.toDigits, Nat.toDigitsCore, h0, h1]

theorem toDigitsCore_succ (f n : Nat) (ds : List Char) :
    Nat.toDigitsCore 10 (f + 1) n ds =
      if n / 10 = 0 then Nat.digitChar (n % 10) :: ds
      else Nat.toDigitsCore 10 f (n / 10) (Nat.digitChar (n % 10) :: ds) := by
  simp [Nat.toDigitsCore]

theorem toDigits_step (n : Nat) (h : 10 ≤ n) :
    Nat.toDigits 10 n = Nat.toDigits 10 (n / 10) ++ [Nat.digitChar (n % 10)] := by
  have h0 : n / 10 ≠ 0 := by omega
  unfold Nat.toDigits
  rw [toDigitsCore_succ n n [], if_neg h0, toDigitsCore_append,
    toDigitsCore_fuel n (n / 10 + 1) (n / 10) (by omega) (by omega)]

theorem digit_value_digitChar (d : Nat) (h : d < 10) :
    digit_value (Nat.digitChar d) = d := by
  interval_cases d <;> rfl

theorem read_decimal_append (l : List Char) (c : Char) :
    read_decimal (l ++ [c]) = read_decimal l * 10 + digit_value c := by
  simp [read_decimal, List.foldl_append]

theorem read_decimal_toDigits (n : Nat) : read_decimal (Nat.toDigits 10 n) = n := by
  induction n using Nat.strong_induction_on with
  | _ n ih =>
    by_cases h : n < 10
    · rw [toDigits_small n h]
      simp [read_decimal, digit_value_digitChar n h]
    · rw [toDigits_step n (by omega), read_decimal_append, ih (n / 10) (by omega),
        digit_value_digitChar _ (Nat.mod_lt _ (by decide))]
      omega

theorem repr_injective (a b : Nat) (h : Nat.repr a = Nat.repr b) : a = b := by
  have h2 : Nat.toDigits 10 a = Nat.toDigits 10 b := by
    have := congrArg String.data h
    simpa [Nat.repr, List.asString] using this
  have := congrArg read_decimal h2
  simpa [read_decimal_toDigits] using this

theorem repr_length_small (n : Nat) (h : n < 10) : (Nat.repr n).length = 1 := by
  simp [Nat.repr, List.asString, String.length, toDigits_small n h]

theorem repr_length_two (n : Nat) (h1 : 10 ≤ n) (h2 : n < 100) : (Nat.repr n).length = 2 := by
  simp [Nat.repr, List.asString, String.length, toDigits_step n h1,
    toDigits_small (n / 10) (by omega)]

/-! ## Buffers -/

theorem snprintf_of_length_lt (size : Nat) (text : String) (h : text.length < size) :
    snprintf size text = text := by
  apply String.ext
  simp only [snprintf]
  exact List.take_of_length_le (by simp only [String.length] at h; omega)

theorem fmt_d_of_nonneg (n : Nat) : fmt_d (n : Int) = Nat.repr n := by
  simp [fmt_d]

/-! ## Machine integers -/

theorem wrap_int_of_range (n : Int) (h1 : -2147483648 ≤ n) (h2 : n ≤ 2147483647) :
    wrap_int n = n := by
  unfold wrap_int
  omega

/-! ## Rounding -/

theorem round_half_even_near (x : ℚ) :
    |((round_half_even x : Int) : ℚ) - x| ≤ 1 / 2 := by
  have h1 := Int.floor_le x
  have h2 := Int.lt_floor_add_one x
  unfold round_half_even
  simp only
  rw [abs_le]
  split_ifs with a b c
  · constructor <;> linarith
  · constructor <;> push_cast <;> linarith
  · constructor <;> linarith
  · constructor <;> push_cast <;> linarith

theorem round_half_even_nonneg (x : ℚ) (h : 0 ≤ x) : 0 ≤ round_half_even x := by
  have h1 : 0 ≤ Int.floor x := Int.floor_nonneg.mpr h
  unfold round_half_even
  simp only
  split_ifs <;> omega

theorem round_half_even_eq_of_near (x : ℚ) (n : Int) (h : |x - (n : ℚ)| < 1 / 2) :
    round_half_even x = n := by
  rw [abs_lt] at h
  obtain ⟨h1, h2⟩ := h
  unfold round_half_even
  simp only
  rcases le_or_lt (n : ℚ) x with c | c
  · have hf : Int.floor x = n := by
      rw [Int.floor_eq_iff]; constructor <;> linarith
    rw [hf, if_pos (by linarith)]
  · have hf : Int.floor x = n - 1 := by
      rw [Int.floor_eq_iff]; push_cast; constructor <;> linarith
    rw [hf, if_neg (by push_cast; linarith), if_pos (by push_cast; linarith)]
    ring

theorem binary_exponent_eq (x : ℚ) (e : Int) (h1 : (2 : ℚ) ^ (e + 52) ≤ |x|)
    (h2 : |x| < (2 : ℚ) ^ (e + 53)) : Int.log 2 |x| - 52 = e := by
  have hpos : 0 < |x| := lt_of_lt_of_le (by positivity) h1
  have a := (Int.zpow_le_iff_le_log (R := ℚ) (b := 2) (by norm_num) hpos (x := e + 52)).1
    (by exact_mod_cast h1)
  have b := (Int.lt_zpow_iff_log_lt (R := ℚ) (b := 2) (by norm_num) hpos (x := e + 53)).1
    (by exact_mod_cast h2)
  omega

theorem round_to_double_eq (x : ℚ) (e : Int) (h1 : (2 : ℚ) ^ (e + 52) ≤ |x|)
    (h2 : |x| < (2 : ℚ) ^ (e + 53)) :
    round_to_double x = (round_half_even (x / (2 : ℚ) ^ e) : ℚ) * (2 : ℚ) ^ e := by
  have hpos : 0 < |x| := lt_of_lt_of_le (by positivity) h1
  have hx : x ≠ 0 := abs_pos.1 hpos
  unfold round_to_double
  rw [if_neg hx]
  simp only
  rw [binary_exponent_eq x e h1 h2]

theorem round_to_double_value (x : ℚ) (e m : Int) (h1 : (2 : ℚ) ^ (e + 52) ≤ |x|)
    (h2 : |x| < (2 : ℚ) ^ (e + 53)) (h3 : |x / (2 : ℚ) ^ e - (m : ℚ)| < 1 / 2) :
    round_to_double x = (m : ℚ) * (2 : ℚ) ^ e := by
  rw [round_to_double_eq x e h1 h2, round_half_even_eq_of_near _ m h3]

theorem round_to_double_near (x : ℚ) : |round_to_double x - x| ≤ |x| / 2 ^ 53 := by
  by_cases hx : x = 0
  · subst hx; simp [round_to_double]
  have hpos : 0 < |x| := abs_pos.2 hx
  have hlog : (2 : ℚ) ^ (Int.log 2 |x|) ≤ |x| := by
    have := Int.zpow_log_le_self (R := ℚ) (b := 2) (r := |x|) (by norm_num) hpos
    exact_mod_cast this
  unfold round_to_double
  rw [if_neg hx]
  simp only
  set e := Int.log 2 |x| - 52 with he
  have hp : (0 : ℚ) < (2 : ℚ) ^ e := by positivity
  have hr := round_half_even_near (x / (2 : ℚ) ^ e)
  have key : (round_half_even (x / (2 : ℚ) ^ e) : ℚ) * (2 : ℚ) ^ e - x
      = ((round_half_even (x / (2 : ℚ) ^ e) : ℚ) - x / (2 : ℚ) ^ e) * (2 : ℚ) ^ e := by
    field_simp
  rw [key, abs_mul, abs_of_pos hp]
  have h2 : (2 : ℚ) ^ (Int.log 2 |x|) = (2 : ℚ) ^ e * 2 ^ 52 := by
    have : Int.log 2 |x| = e + 52 := by omega
    rw [this, zpow_add₀ (by norm_num)]
    norm_num
  have h3 : (2 : ℚ) ^ e ≤ |x| / 2 ^ 52 := by
    rw [le_div_iff₀ (by positivity)]
    linarith
  calc |(round_half_even (x / (2 : ℚ) ^ e) : ℚ) - x / (2 : ℚ) ^ e| * (2 : ℚ) ^ e
      ≤ 1 / 2 * (2 : ℚ) ^ e := by gcongr
    _ ≤ 1 / 2 * (|x| / 2 ^ 52) := by gcongr
    _ = |x| / 2 ^ 53 := by ring

theorem round_to_double_eq_zero (x : ℚ) (h : round_to_double x = 0) : x = 0 := by
  have n := round_to_double_near x
  rw [h, zero_sub, abs_neg] at n
  have hp : (0 : ℚ) ≤ |x| := abs_nonneg x
  have : |x| ≤ 0 := by
    have e : |x| / 2 ^ 53 = |x| * (1 / 9007199254740992) := by norm_num [div_eq_mul_inv]
    rw [e] at n
    nlinarith
  exact abs_eq_zero.1 (le_antisymm this hp)

theorem round_to_double_pos (x : ℚ) (h : 0 < x) : 0 < round_to_double x := by
  have n := round_to_double_near x
  rw [abs_of_pos h, abs_le] at n
  have e : x / 2 ^ 53 = x * (1 / 9007199254740992) := by norm_num [div_eq_mul_inv]
  rw [e] at n
  nlinarith [n.1]

theorem round_to_double_neg (x : ℚ) (h : x < 0) : round_to_double x < 0 := by
  have n := round_to_double_near x
  rw [abs_of_neg h, abs_le] at n
  have e : -x / 2 ^ 53 = -x * (1 / 9007199254740992) := by norm_num [div_eq_mul_inv]
  rw [e] at n
  nlinarith [n.2]

theorem round_to_double_neg_iff (x : ℚ) : round_to_double x < 0 ↔ x < 0 := by
  constructor
  · intro h
    by_contra hc
    rcases eq_or_lt_of_le (not_lt.1 hc) with z | p
    · rw [← z] at h
      simp [round_to_double] at h
    · exact absurd (round_to_double_pos x p) (not_lt.2 (le_of_lt h))
  · exact round_to_double_neg x

theorem round_to_double_of_pos (x y : ℚ) (e m : Int) (h1 : (2 : ℚ) ^ (e + 52) ≤ x)
    (h2 : x < (2 : ℚ) ^ (e + 53)) (h3 : (m : ℚ) - 1 / 2 < x / (2 : ℚ) ^ e)
    (h4 : x / (2 : ℚ) ^ e < (m : ℚ) + 1 / 2) (hy : y = (m : ℚ) * (2 : ℚ) ^ e) :
    round_to_double x = y := by
  have hpos : 0 < x := lt_of_lt_of_le (by positivity) h1
  rw [hy]
  apply round_to_double_value
  · rw [abs_of_pos hpos]; exact h1
  · rw [abs_of_pos hpos]; exact h2
  · rw [abs_lt]; constructor <;> linarith

/-! ## Gas consumption -/

theorem calculate_airuse_loop_eq (l : List cylinder_t) : ∀ acc : ℚ,
    calculate_airuse_loop l acc =
      (l.filter (fun c => decide (c.type.size.mliter ≠ 0))).foldl
        (fun airuse c => double_add airuse (airuse_term c)) acc := by
  induction l with
  | nil => intro acc; simp [calculate_airuse_loop]
  | cons c rest ih =>
    intro acc
    by_cases h : c.type.size.mliter = 0
    · simp [calculate_airuse_loop, h, ih]
    · simp [calculate_airuse_loop, h, ih, airuse_term]

theorem calculate_airuse_eq (d : dive) : calculate_airuse d = airuse_rounded d := by
  simp [calculate_airuse, airuse_rounded, calculate_airuse_loop_eq]

theorem double_to_int_eq_truncate (q : ℚ) (h1 : -2147483649 < q) (h2 : q < 2147483648) :
    double_to_int q = truncate q := by
  unfold double_to_int truncate
  rw [if_pos ⟨h1, h2⟩]
  by_cases h : 0 ≤ q
  · rw [if_pos h, Rat.floor_def,
      Int.tdiv_eq_ediv (Rat.num_nonneg.mpr h) (Int.ofNat_nonneg _)]
  · rw [if_neg h]
    have hn : q.num < 0 := Rat.num_neg.mpr (not_le.mp h)
    have e : Int.ceil q = - Int.floor (-q) := by
      rw [Int.floor_neg, neg_neg]
    rw [e, Rat.floor_def, Rat.neg_num, Rat.neg_den,
      ← Int.tdiv_eq_ediv (by omega) (Int.ofNat_nonneg _), Int.neg_tdiv, neg_neg]

/-- The mean pressure `1 + meandepth / 10000` is zero at the mean depth
-10000 mm only. -/
theorem mean_pressure_ne_zero (mm : Int) (h : mm ≠ -10000) :
    double_add 1 (double_div (mm : ℚ) 10000) ≠ 0 := by
  intro hz
  unfold double_add double_div at hz
  have h1 := round_to_double_eq_zero _ hz
  have h2 : round_to_double ((mm : ℚ) / 10000) = -1 := by linarith
  have n := round_to_double_near ((mm : ℚ) / 10000)
  rw [h2, abs_div, abs_of_pos (by norm_num : (0 : ℚ) < 10000)] at n
  have e : (-1 : ℚ) - (mm : ℚ) / 10000 = -(((mm : ℚ) + 10000) / 10000) := by ring
  rw [e, abs_neg, abs_div, abs_of_pos (by norm_num : (0 : ℚ) < 10000)] at n
  have hne : (mm : ℚ) + 10000 ≠ 0 := by
    intro hc
    apply h
    have : ((mm + 10000 : Int) : ℚ) = 0 := by push_cast; exact hc
    have := Int.cast_eq_zero.1 this
    omega
  have hone : (1 : ℚ) ≤ |(mm : ℚ) + 10000| := by
    have : ((mm + 10000 : Int) : ℚ) = (mm : ℚ) + 10000 := by push_cast; rfl
    rw [← this, ← Int.cast_abs]
    have : (1 : Int) ≤ |mm + 10000| := Int.one_le_abs (by omega)
    exact_mod_cast this
  have tri : |(mm : ℚ)| ≤ |(mm : ℚ) + 10000| + 10000 := by
    have a : |(mm : ℚ) + 10000 - 10000| ≤ |(mm : ℚ) + 10000| + |(10000 : ℚ)| := abs_sub _ _
    rw [add_sub_cancel_right, abs_of_pos (by norm_num : (0 : ℚ) < 10000)] at a
    exact a
  have e2 : |(mm : ℚ)| / 10000 / 2 ^ 53 = |(mm : ℚ)| * (1 / 90071992547409920000) := by
    norm_num [div_eq_mul_inv]; ring
  have e3 : |(mm : ℚ) + 10000| / 10000 = |(mm : ℚ) + 10000| * (1 / 10000) := by ring
  rw [e2, e3] at n
  nlinarith

theorem sample_airuse_value :
    double_add 0 (double_mul (double_div 150000 1013250) 2000) =
      1302160328972317 / 4398046511104 := by
  have h1 : round_to_double (150000 / 1013250) = 2666824353735305 / 18014398509481984 :=
    round_to_double_of_pos _ _ (-55) 5333648707470610 (by norm_num) (by norm_num) (by norm_num)
      (by norm_num) (by norm_num)
  have h2 : round_to_double (2666824353735305 / 18014398509481984 * 2000) =
      1302160328972317 / 4398046511104 :=
    round_to_double_of_pos _ _ (-44) 5208641315889268 (by norm_num) (by norm_num) (by norm_num)
      (by norm_num) (by norm_num)
  have h3 : round_to_double (0 + (1302160328972317 / 4398046511104)) =
      1302160328972317 / 4398046511104 :=
    round_to_double_of_pos _ _ (-44) 5208641315889268 (by norm_num) (by norm_num) (by norm_num)
      (by norm_num) (by norm_num)
  unfold double_add double_mul double_div
  rw [h1, h2, h3]

theorem sample_sac_value :
    double_mul (double_div (double_mul (double_div (1302160328972317 / 4398046511104)
      (double_add 1 (double_div 10000 10000))) 60) 1200) 1000 =
      8138502056076981 / 1099511627776 := by
  have g1 : round_to_double (10000 / 10000) = 1 :=
    round_to_double_of_pos _ _ (-52) 4503599627370496 (by norm_num) (by norm_num) (by norm_num)
      (by norm_num) (by norm_num)
  have g2 : round_to_double (1 + 1) = 2 :=
    round_to_double_of_pos _ _ (-51) 4503599627370496 (by norm_num) (by norm_num) (by norm_num)
      (by norm_num) (by norm_num)
  have g3 : round_to_double (1302160328972317 / 4398046511104 / 2) =
      1302160328972317 / 8796093022208 :=
    round_to_double_of_pos _ _ (-45) 5208641315889268 (by norm_num) (by norm_num) (by norm_num)
      (by norm_num) (by norm_num)
  have g4 : round_to_double (1302160328972317 / 8796093022208 * 60) =
      4883101233646189 / 549755813888 :=
    round_to_double_of_pos _ _ (-39) 4883101233646189 (by norm_num) (by norm_num) (by norm_num)
      (by norm_num) (by norm_num)
  have g5 : round_to_double (4883101233646189 / 549755813888 / 1200) =
      8333826105422829 / 1125899906842624 :=
    round_to_double_of_pos _ _ (-50) 8333826105422829 (by norm_num) (by norm_num) (by norm_num)
      (by norm_num) (by norm_num)
  have g6 : round_to_double (8333826105422829 / 1125899906842624 * 1000) =
      8138502056076981 / 1099511627776 :=
    round_to_double_of_pos _ _ (-40) 8138502056076981 (by norm_num) (by norm_num) (by norm_num)
      (by norm_num) (by norm_num)
  unfold double_add double_mul double_div
  rw [g1, g2, g3, g4, g5, g6]

theorem rounding_airuse_value :
    double_add 0 (double_mul (double_div 66000 1013250) 13510) =
      7740561859543039 / 8796093022208 := by
  have h1 : round_to_double (66000 / 1013250) = 586701357821767 / 9007199254740992 :=
    round_to_double_of_pos _ _ (-56) 4693610862574136 (by norm_num) (by norm_num) (by norm_num)
      (by norm_num) (by norm_num)
  have h2 : round_to_double (586701357821767 / 9007199254740992 * 13510) =
      7740561859543039 / 8796093022208 :=
    round_to_double_of_pos _ _ (-43) 7740561859543039 (by norm_num) (by norm_num) (by norm_num)
      (by norm_num) (by norm_num)
  have h3 : round_to_double (0 + (7740561859543039 / 8796093022208)) =
      7740561859543039 / 8796093022208 :=
    round_to_double_of_pos _ _ (-43) 7740561859543039 (by norm_num) (by norm_num) (by norm_num)
      (by norm_num) (by norm_num)
  unfold double_add double_mul double_div
  rw [h1, h2, h3]

theorem rounding_sac_value :
    double_mul (double_div (double_mul (double_div (7740561859543039 / 8796093022208)
      (double_add 1 (double_div 10000 10000))) 60) 1200) 1000 =
      6047313952767999 / 274877906944 := by
  have g1 : round_to_double (10000 / 10000) = 1 :=
    round_to_double_of_pos _ _ (-52) 4503599627370496 (by norm_num) (by norm_num) (by norm_num)
      (by norm_num) (by norm_num)
  have g2 : round_to_double (1 + 1) = 2 :=
    round_to_double_of_pos _ _ (-51) 4503599627370496 (by norm_num) (by norm_num) (by norm_num)
      (by norm_num) (by norm_num)
  have g3 : round_to_double (7740561859543039 / 8796093022208 / 2) =
      7740561859543039 / 17592186044416 :=
    round_to_double_of_pos _ _ (-44) 7740561859543039 (by norm_num) (by norm_num) (by norm_num)
      (by norm_num) (by norm_num)
  have g4 : round_to_double (7740561859543039 / 17592186044416 * 60) =
      7256776743321599 / 274877906944 :=
    round_to_double_of_pos _ _ (-38) 7256776743321599 (by norm_num) (by norm_num) (by norm_num)
      (by norm_num) (by norm_num)
  have g5 : round_to_double (7256776743321599 / 274877906944 / 1200) =
      6192449487634431 / 281474976710656 :=
    round_to_double_of_pos _ _ (-48) 6192449487634431 (by norm_num) (by norm_num) (by norm_num)
      (by norm_num) (by norm_num)
  have g6 : round_to_double (6192449487634431 / 281474976710656 * 1000) =
      6047313952767999 / 274877906944 :=
    round_to_double_of_pos _ _ (-38) 6047313952767999 (by norm_num) (by norm_num) (by norm_num)
      (by norm_num) (by norm_num)
  unfold double_add double_mul double_div
  rw [g1, g2, g3, g4, g5, g6]

theorem overflow_airuse_value :
    double_add 0 (double_mul (double_div 2147483647 1013250) 2147483647) =
      582576668945423 / 128 := by
  have h1 : round_to_double (2147483647 / 1013250) = 4660613353733651 / 2199023255552 :=
    round_to_double_of_pos _ _ (-41) 4660613353733651 (by norm_num) (by norm_num) (by norm_num)
      (by norm_num) (by norm_num)
  have h2 : round_to_double (4660613353733651 / 2199023255552 * 2147483647) =
      582576668945423 / 128 :=
    round_to_double_of_pos _ _ (-10) 4660613351563384 (by norm_num) (by norm_num) (by norm_num)
      (by norm_num) (by norm_num)
  have h3 : round_to_double (0 + (582576668945423 / 128)) = 582576668945423 / 128 :=
    round_to_double_of_pos _ _ (-10) 4660613351563384 (by norm_num) (by norm_num) (by norm_num)
      (by norm_num) (by norm_num)
  unfold double_add double_mul double_div
  rw [h1, h2, h3]

theorem overflow_sac_value :
    double_mul (double_div (double_mul (double_div (582576668945423 / 128)
      (double_add 1 (double_div 10000 10000))) 60) 1200) 1000 =
      7282208361817787 / 64 := by
  have g1 : round_to_double (10000 / 10000) = 1 :=
    round_to_double_of_pos _ _ (-52) 4503599627370496 (by norm_num) (by norm_num) (by norm_num)
      (by norm_num) (by norm_num)
  have g2 : round_to_double (1 + 1) = 2 :=
    round_to_double_of_pos _ _ (-51) 4503599627370496 (by norm_num) (by norm_num) (by norm_num)
      (by norm_num) (by norm_num)
  have g3 : round_to_double (582576668945423 / 128 / 2) = 582576668945423 / 256 :=
    round_to_double_of_pos _ _ (-11) 4660613351563384 (by norm_num) (by norm_num) (by norm_num)
      (by norm_num) (by norm_num)
  have g4 : round_to_double (582576668945423 / 256 * 60) = 8738650034181345 / 64 :=
    round_to_double_of_pos _ _ (-6) 8738650034181345 (by norm_num) (by norm_num) (by norm_num)
      (by norm_num) (by norm_num)
  have g5 : round_to_double (8738650034181345 / 64 / 1200) = 3728490681250707 / 32768 :=
    round_to_double_of_pos _ _ (-16) 7456981362501414 (by norm_num) (by norm_num) (by norm_num)
      (by norm_num) (by norm_num)
  have g6 : round_to_double (3728490681250707 / 32768 * 1000) = 7282208361817787 / 64 :=
    round_to_double_of_pos _ _ (-6) 7282208361817787 (by norm_num) (by norm_num) (by norm_num)
      (by norm_num) (by norm_num)
  unfold double_add double_mul double_div
  rw [g1, g2, g3, g4, g5, g6]

theorem mean_pressure_ten_metres : double_add 1 (double_div 10000 10000) = 2 := by
  have g1 : round_to_double (10000 / 10000) = 1 :=
    round_to_double_of_pos _ _ (-52) 4503599627370496 (by norm_num) (by norm_num) (by norm_num)
      (by norm_num) (by norm_num)
  have g2 : round_to_double (1 + 1) = 2 :=
    round_to_double_of_pos _ _ (-51) 4503599627370496 (by norm_num) (by norm_num) (by norm_num)
      (by norm_num) (by norm_num)
  unfold double_add double_div
  rw [g1, g2]

/-- The air use of a dive whose only slot of non-zero size is the first. -/
theorem airuse_rounded_single (d : dive) (c : cylinder_t) (rest : List cylinder_t)
    (hcyl : d.cylinder = c :: rest) (hsize : c.type.size.mliter ≠ 0)
    (hrest : ∀ r ∈ rest, r.type.size.mliter = 0) :
    airuse_rounded d = double_add 0 (airuse_term c) := by
  have hfilter : rest.filter (fun c => decide (c.type.size.mliter ≠ 0)) = [] := by
    rw [List.filter_eq_nil_iff]
    intro r hr
    simp [hrest r hr]
  unfold airuse_rounded
  rw [hcyl, List.filter_cons, if_pos (by simpa using hsize), hfilter]
  rfl

theorem sample_airuse_rounded :
    airuse_rounded sample_dive = 1302160328972317 / 4398046511104 := by
  rw [airuse_rounded_single sample_dive _ [] rfl (by decide) (by simp)]
  have e : airuse_term
      { type := { size := { mliter := 2000 }, description := some "AL80" }
        gasmix := { o2 := 320 }
        start := { mbar := 200000 }
        end_ := { mbar := 50000 } } =
      double_mul (double_div 150000 1013250) 2000 := by
    norm_num [airuse_term, wrap_int]
  rw [e, sample_airuse_value]

theorem sample_sac_rounded :
    sac_rounded sample_dive = 8138502056076981 / 1099511627776 := by
  unfold sac_rounded
  rw [sample_airuse_rounded]
  have hm : ((sample_dive.meandepth.mm : Int) : ℚ) = 10000 := by
    norm_num [sample_dive]
  have hd : ((sample_dive.duration.seconds : Int) : ℚ) = 1200 := by
    norm_num [sample_dive]
  rw [hm, hd, sample_sac_value]

/-- Counterexample to C1: for one cylinder of 13510 ml breathed from 150000 to
84000 mbar at a mean depth of 10 m during 1200 s, exact arithmetic gives an air
use of 880 litres and the rate 22000, while `get_sac`, rounding every `double`
operation, yields 21999.  At a mean depth of -10000 mm the divisor
`1 + meandepth / 10000` is zero and `get_sac` stores `INT_MIN`, and so it does
for a rate beyond the range of `int`. -/
theorem get_sac_exact_counterexample :
    airuse_sum rounding_dive = 880 ∧
    rounding_dive.duration.seconds ≠ 0 ∧
    truncate (sac_exact rounding_dive) = 22000 ∧
    get_sac rounding_dive = 21999 ∧
    get_sac rounding_dive ≠
      (if airuse_sum rounding_dive = 0 ∨ rounding_dive.duration.seconds = 0 then 0
        else truncate (sac_exact rounding_dive)) ∧
    (1 + (zero_pressure_dive.meandepth.mm : ℚ) / 10000 = 0 ∧
      get_sac zero_pressure_dive = -2147483648) ∧
    (2147483647 < sac_exact overflow_dive ∧ get_sac overflow_dive = -2147483648) := by
  have ha : airuse_sum rounding_dive = 880 := by
    norm_num [airuse_sum, rounding_dive]
  have hs : sac_exact rounding_dive = 22000 := by
    unfold sac_exact
    rw [ha]
    norm_num [rounding_dive, sample_dive]
  have ht : truncate (sac_exact rounding_dive) = 22000 := by
    rw [hs]; rfl
  have hr : airuse_rounded rounding_dive = 7740561859543039 / 8796093022208 := by
    rw [airuse_rounded_single rounding_dive _ [] rfl (by decide) (by simp)]
    have e : airuse_term
        { type := { size := { mliter := 13510 }, description := none }
          gasmix := { o2 := 210 }
          start := { mbar := 150000 }
          end_ := { mbar := 84000 } } =
        double_mul (double_div 66000 1013250) 13510 := by
      norm_num [airuse_term, wrap_int]
    rw [e, rounding_airuse_value]
  have hg : get_sac rounding_dive = 21999 := by
    unfold get_sac
    rw [calculate_airuse_eq, hr]
    have hm : ((rounding_dive.meandepth.mm : Int) : ℚ) = 10000 := by
      norm_num [rounding_dive, sample_dive]
    have hd : ((rounding_dive.duration.seconds : Int) : ℚ) = 1200 := by
      norm_num [rounding_dive, sample_dive]
    have hd0 : rounding_dive.duration.seconds ≠ 0 := by decide
    simp only [hm, hd]
    rw [if_neg (by norm_num), if_neg hd0, if_neg (by rw [mean_pressure_ten_metres]; norm_num),
      rounding_sac_value]
    norm_num [double_to_int]
  have hz : get_sac zero_pressure_dive = -2147483648 := by
    have hair : airuse_rounded zero_pressure_dive = 1302160328972317 / 4398046511104 :=
      sample_airuse_rounded
    have hm : ((zero_pressure_dive.meandepth.mm : Int) : ℚ) = -10000 := by
      norm_num [zero_pressure_dive]
    have hd0 : zero_pressure_dive.duration.seconds ≠ 0 := by decide
    have g1 : round_to_double (-10000 / 10000) = -1 := by
      have := round_to_double_value (-10000 / 10000) (-52) (-4503599627370496)
        (by norm_num) (by norm_num) (by norm_num)
      rw [this]; norm_num
    have hp : double_add 1 (double_div (-10000) 10000) = 0 := by
      unfold double_add double_div
      rw [g1]
      norm_num [round_to_double]
    unfold get_sac
    rw [calculate_airuse_eq, hair, hm]
    simp only
    rw [if_neg (by norm_num), if_neg hd0, if_pos hp]
    rfl
  have ho : airuse_rounded overflow_dive = 582576668945423 / 128 := by
    rw [airuse_rounded_single overflow_dive _ [] rfl (by decide) (by simp)]
    have e : airuse_term
        { type := { size := { mliter := 2147483647 }, description := none }
          gasmix := { o2 := 210 }
          start := { mbar := 2147483647 }
          end_ := { mbar := 0 } } =
        double_mul (double_div 2147483647 1013250) 2147483647 := by
      norm_num [airuse_term, wrap_int]
    rw [e, overflow_airuse_value]
  have hov : get_sac overflow_dive = -2147483648 := by
    unfold get_sac
    rw [calculate_airuse_eq, ho]
    have hm : ((overflow_dive.meandepth.mm : Int) : ℚ) = 10000 := by
      norm_num [overflow_dive, sample_dive]
    have hd : ((overflow_dive.duration.seconds : Int) : ℚ) = 1200 := by
      norm_num [overflow_dive, sample_dive]
    have hd0 : overflow_dive.duration.seconds ≠ 0 := by decide
    simp only [hm, hd]
    rw [if_neg (by norm_num), if_neg hd0, if_neg (by rw [mean_pressure_ten_metres]; norm_num),
      overflow_sac_value]
    norm_num [double_to_int, INT_MIN]
  refine ⟨ha, by decide, ht, hg, ?_, ⟨?_, hz⟩, ⟨?_, hov⟩⟩
  · rw [hg, ha, ht]
    norm_num [rounding_dive, sample_dive]
  · norm_num [zero_pressure_dive]
  · norm_num [sac_exact, airuse_sum, overflow_dive, sample_dive]

/-- C1 (amended): `calculate_airuse` adds up, from 0 and in slot order, the
contributions `(start - end) / 1013250 * size` of the slots of non-zero size in
`double` arithmetic; `get_sac` is 0 when that air use or the duration is zero,
and otherwise, for a mean depth other than -10000 mm and a result in the range
of `int`, the truncation of `airuse / (1 + meandepth / 10000) * 60 / duration *
1000` evaluated in `double` arithmetic. -/
theorem get_sac_spec (d : dive) :
    calculate_airuse d = airuse_rounded d ∧
    (airuse_rounded d = 0 ∨ d.duration.seconds = 0 → get_sac d = 0) ∧
    (airuse_rounded d ≠ 0 → d.duration.seconds ≠ 0 → d.meandepth.mm ≠ -10000 →
      -2147483649 < sac_rounded d → sac_rounded d < 2147483648 →
      get_sac d = truncate (sac_rounded d)) := by
  have h := calculate_airuse_eq d
  refine ⟨h, ?_, ?_⟩
  · intro hz
    unfold get_sac
    simp only [h]
    rcases hz with a | s
    · simp [a]
    · simp [s]
  · intro ha hs hm lo hi
    have hp := mean_pressure_ne_zero d.meandepth.mm hm
    unfold get_sac
    simp only [h]
    rw [if_neg ha, if_neg hs, if_neg hp]
    exact double_to_int_eq_truncate _ lo hi

/-- Witness of C1 (amended): the sample dive, one cylinder of 2000 ml breathed
from 200000 to 50000 mbar at a mean depth of 10 m during 1200 s. -/
theorem get_sac_spec_witness :
    (airuse_rounded sample_dive ≠ 0 ∧ sample_dive.duration.seconds ≠ 0 ∧
      sample_dive.meandepth.mm ≠ -10000 ∧ -2147483649 < sac_rounded sample_dive ∧
      sac_rounded sample_dive < 2147483648) ∧
    get_sac sample_dive = truncate (sac_rounded sample_dive) :=
  ⟨⟨by rw [sample_airuse_rounded]; norm_num, by decide, by decide,
      by rw [sample_sac_rounded]; norm_num, by rw [sample_sac_rounded]; norm_num⟩,
    (get_sac_spec sample_dive).2.2 (by rw [sample_airuse_rounded]; norm_num) (by decide)
      (by decide) (by rw [sample_sac_rounded]; norm_num)
      (by rw [sample_sac_rounded]; norm_num)⟩

/-! ## Depth column -/

theorem depth_finish_frac (n f : Nat) (hn : n < 10 ^ 10) (hf : f < 10) :
    snprintf 40 (fmt_d (n : Int)) ++
      snprintf (40 - snprintf_len (fmt_d (n : Int))) ("." ++ fmt_d (f : Int)) =
    Nat.repr n ++ "." ++ Nat.repr f := by
  have hl : (Nat.repr n).length ≤ 10 := Nat.repr_length n 10 (by decide) hn
  have hf1 : (Nat.repr f).length = 1 := repr_length_small f hf
  rw [fmt_d_of_nonneg, fmt_d_of_nonneg, snprintf_of_length_lt _ _ (by omega),
    snprintf_of_length_lt, String.append_assoc]
  simp only [snprintf_len, String.length_append, hf1]
  have : ".".length = 1 := by decide
  omega

/-- Counterexample to C2: at the depth 2147483647 mm the `int` sum `depth + 49`
leaves the range of `int` and comes out as -2147483600, so the text is
"-2147483", where `t = (d + 49) / 100 = 21474836` asks for the numeral of
`t / 10`, "2147483"; the same happens from 2147483599 mm on, the first depth
whose sum is not an `int`. -/
theorem depth_data_func_meters_counterexample :
    depth_data_func (fun _ => 0) length_unit.METERS 2147483647 = some "-2147483" ∧
    ¬ ((2147483647 + 49) / 100 / 10 < 20) ∧
    Nat.repr ((2147483647 + 49) / 100 / 10) = "2147483" ∧
    depth_data_func (fun _ => 0) length_unit.METERS 2147483647 ≠
      some (Nat.repr ((2147483647 + 49) / 100 / 10)) ∧
    depth_data_func (fun _ => 0) length_unit.METERS 2147483599 = some "-2147483" ∧
    depth_data_func (fun _ => 0) length_unit.METERS 2147483599 ≠
      some (Nat.repr ((2147483599 + 49) / 100 / 10)) := by
  refine ⟨by decide, by decide, by decide, by decide, by decide, by decide⟩

/-- C2 (amended): in METERS mode a depth `d` of `0 .. 2147483598` millimetres
(so that `d + 49` is an `int`), with `t = (d + 49) / 100`, is shown as the
numeral of `t / 10`, a point and the digit `t % 10` when `t / 10 < 20`, and as
the numeral of `t / 10` alone otherwise; 19000 mm gives "19.0" and 20500 mm
gives "20". -/
theorem depth_data_func_meters (mm_to_feet : Int → ℚ) :
    (∀ d : Nat, d ≤ 2147483598 →
      depth_data_func mm_to_feet length_unit.METERS (d : Int) =
        if (d + 49) / 100 / 10 < 20 then
          some (Nat.repr ((d + 49) / 100 / 10) ++ "." ++ Nat.repr ((d + 49) / 100 % 10))
        else
          some (Nat.repr ((d + 49) / 100 / 10))) ∧
    depth_data_func mm_to_feet length_unit.METERS 19000 = some "19.0" ∧
    depth_data_func mm_to_feet length_unit.METERS 20500 = some "20" := by
  refine ⟨?_, rfl, rfl⟩
  intro d hd
  have e0 : wrap_int ((d : Int) + 49) = (d : Int) + 49 :=
    wrap_int_of_range _ (by omega) (by omega)
  have e1 : Int.tdiv ((d : Int) + 49) 100 = (((d + 49) / 100 : Nat) : Int) := by
    rw [Int.ofNat_tdiv]; rfl
  have e2 : Int.tdiv (((d + 49) / 100 : Nat) : Int) 10 = (((d + 49) / 100 / 10 : Nat) : Int) := by
    rw [Int.ofNat_tdiv]; rfl
  have e3 : Int.tmod (((d + 49) / 100 : Nat) : Int) 10 = (((d + 49) / 100 % 10 : Nat) : Int) := by
    rw [Int.ofNat_tmod]; rfl
  simp only [depth_data_func, e0, e1, e2, e3]
  by_cases h : (d + 49) / 100 / 10 < 20
  · have h' : (((d + 49) / 100 / 10 : Nat) : Int) < 20 := by exact_mod_cast h
    rw [if_pos h', if_pos h, if_pos (Int.ofNat_nonneg _),
      depth_finish_frac _ _ (by omega) (Nat.mod_lt _ (by decide))]
  · have h' : ¬ (((d + 49) / 100 / 10 : Nat) : Int) < 20 := by exact_mod_cast h
    rw [if_neg h', if_neg h, if_neg (by decide)]
    rw [fmt_d_of_nonneg, snprintf_of_length_lt]
    have := Nat.repr_length ((d + 49) / 100 / 10) 10 (by decide) (by omega)
    omega

/-- Witness of C2 (amended) at 19949 mm. -/
theorem depth_data_func_meters_witness :
    (19949 : Nat) ≤ 2147483598 ∧
    depth_data_func (fun _ => 0) length_unit.METERS ((19949 : Nat) : Int) = some "19.9" :=
  ⟨by decide, ((depth_data_func_meters (fun _ => 0)).1 19949 (by decide)).trans (by decide)⟩

/-! ## Dive info: flushing the form into the record -/

theorem strcmp_chars_eq_zero (a : List Char) : ∀ b : List Char,
    strcmp_chars a b = 0 ↔ a = b := by
  induction a with
  | nil => intro b; cases b <;> simp [strcmp_chars]
  | cons x xs ih =>
    intro b
    cases b with
    | nil => simp [strcmp_chars]
    | cons y ys =>
      by_cases h : x = y
      · simp [strcmp_chars, h, ih]
      · by_cases h2 : x.toNat < y.toNat <;> simp [strcmp_chars, h, h2]

theorem strcmp_eq_zero (a b : String) : strcmp a b = 0 ↔ a = b := by
  unfold strcmp
  rw [strcmp_chars_eq_zero]
  constructor
  · exact String.ext
  · intro h; rw [h]

theorem text_changed_ne_zero (old : Option String) (new : String) :
    text_changed old new ≠ 0 ↔ new ≠ old.getD "" := by
  cases old with
  | none =>
    by_cases h : new = ""
    · simp [text_changed, strcmp_eq_zero, h]
    · have h2 : ¬ "" = new := fun e => h e.symm
      simp [text_changed, strcmp_eq_zero, h, h2]
  | some o =>
    by_cases h : new = o
    · simp [text_changed, strcmp_eq_zero, h]
    · have h2 : ¬ o = new := fun e => h e.symm
      simp [text_changed, strcmp_eq_zero, h, h2]

/-- C3: `text_changed` is non-zero exactly when the form text differs from the
stored text, an absent stored text read as the empty string; after the flush of
a record every field whose changed flag is set holds the form text (the others
keep their value), and the change flag of the dive list is 1 when some flagged
field differed and is otherwise the value it had before. -/
theorem flush_dive_info_changes_spec (ui : info_state) (dive_list : DiveList) (d : dive) :
    (∀ (old : Option String) (new : String),
      text_changed old new ≠ 0 ↔ new ≠ old.getD "") ∧
    ∃ d2 : dive,
      (flush_dive_info_changes ui dive_list (some d)).1 = some d2 ∧
      d2.location = (if ui.location_changed ≠ 0 then some ui.location else d.location) ∧
      d2.divemaster =
        (if ui.divemaster_changed ≠ 0 then some ui.divemaster else d.divemaster) ∧
      d2.buddy = (if ui.buddy_changed ≠ 0 then some ui.buddy else d.buddy) ∧
      d2.notes = (if ui.notes_changed ≠ 0 then some ui.notes else d.notes) ∧
      unsaved_changes (flush_dive_info_changes ui dive_list (some d)).2 =
        (if (ui.location_changed ≠ 0 ∧ ui.location ≠ d.location.getD "") ∨
            (ui.divemaster_changed ≠ 0 ∧ ui.divemaster ≠ d.divemaster.getD "") ∨
            (ui.buddy_changed ≠ 0 ∧ ui.buddy ≠ d.buddy.getD "") ∨
            (ui.notes_changed ≠ 0 ∧ ui.notes ≠ d.notes.getD "")
         then 1 else unsaved_changes dive_list) := by
  refine ⟨text_changed_ne_zero, ?_⟩
  refine ⟨_, rfl, ?_⟩
  have t := text_changed_ne_zero
  by_cases h1 : ui.location_changed = 0 <;> by_cases h2 : ui.divemaster_changed = 0 <;>
    by_cases h3 : ui.buddy_changed = 0 <;> by_cases h4 : ui.notes_changed = 0 <;>
    by_cases c1 : ui.location = d.location.getD "" <;>
    by_cases c2 : ui.divemaster = d.divemaster.getD "" <;>
    by_cases c3 : ui.buddy = d.buddy.getD "" <;>
    by_cases c4 : ui.notes = d.notes.getD "" <;>
    simp [flush_dive_info_changes, unsaved_changes, mark_divelist_changed, t,
      h1, h2, h3, h4, c1, c2, c3, c4]

/-- C4: with the four changed flags clear the flush leaves the record and the
change flag of the dive list as they were, whatever the form fields hold. -/
theorem flush_dive_info_changes_flags_clear (ui : info_state) (dive_list : DiveList)
    (d : dive) (h1 : ui.location_changed = 0) (h2 : ui.divemaster_changed = 0)
    (h3 : ui.buddy_changed = 0) (h4 : ui.notes_changed = 0) :
    flush_dive_info_changes ui dive_list (some d) = (some d, dive_list) ∧
    unsaved_changes (flush_dive_info_changes ui dive_list (some d)).2 =
      unsaved_changes dive_list := by
  simp [flush_dive_info_changes, h1, h2, h3, h4]

/-- Witness of C4: a form full of text, flags clear, flushed into the sample dive. -/
theorem flush_dive_info_changes_flags_clear_witness :
    flush_dive_info_changes sample_form { changed := 0 } (some sample_dive) =
      (some sample_dive, { changed := 0 }) ∧
    unsaved_changes (flush_dive_info_changes sample_form { changed := 0 } (some sample_dive)).2 =
      unsaved_changes { changed := 0 } :=
  flush_dive_info_changes_flags_clear sample_form { changed := 0 } sample_dive rfl rfl rfl rfl

/-! ## Temperature column -/

/-- C7: a stored temperature of 0 gives the empty text, whatever the active
temperature unit. -/
theorem temperature_data_func_zero (mkelvin_to_C mkelvin_to_F : Int → ℚ)
    (temperature : temperature_unit) :
    temperature_data_func mkelvin_to_C mkelvin_to_F temperature 0 = some "" := by
  simp [temperature_data_func]

/-! ## Dive info: the window title -/

/-- The year of the 400-year era, from the day of the era: 0 .. 399. -/
theorem year_of_era_bounds (doe : Int) (h0 : 0 ≤ doe) (h1 : doe ≤ 146096) :
    0 ≤ (doe - doe / 1460 + doe / 36524 - doe / 146096) / 365 ∧
    (doe - doe / 1460 + doe / 36524 - doe / 146096) / 365 ≤ 399 := by
  constructor <;> omega

/-- For a timestamp from the first second of the year -2147481748 to the last
second of the year 2147483647 the field `tm_year` and the year
`tm_year + 1900` are in the range of `int`. -/
theorem broken_down_time_year (t : Int) (hlo : -67768040609740800 ≤ t)
    (hhi : t ≤ 67767976233532799) :
    -2147483648 ≤ (broken_down_time t).tm_year ∧
    (broken_down_time t).tm_year + 1900 ≤ 2147483647 := by
  unfold broken_down_time
  simp only
  have hz1 : -784351602404 ≤ t / 86400 + 719468 := by omega
  have hz2 : t / 86400 + 719468 ≤ 784352296244 := by omega
  generalize t / 86400 + 719468 = z at hz1 hz2 ⊢
  have hd0 : 0 ≤ z % 146097 := Int.emod_nonneg _ (by decide)
  have hd1 : z % 146097 < 146097 := Int.emod_lt_of_pos _ (by decide)
  have hze : z = 146097 * (z / 146097) + z % 146097 := (Int.ediv_add_emod z 146097).symm
  generalize z / 146097 = era at hze ⊢
  generalize z % 146097 = doe at hd0 hd1 hze ⊢
  obtain ⟨hy0, hy1⟩ := year_of_era_bounds doe hd0 (by omega)
  have hera1 : -5368705 ≤ era := by omega
  have hera2 : era ≤ 5368709 := by omega
  constructor
  · rcases eq_or_lt_of_le hera1 with he | he
    · subst he
      have hdoe : 91981 ≤ doe := by omega
      have hyoe : 251 ≤ (doe - doe / 1460 + doe / 36524 - doe / 146096) / 365 := by omega
      have hrel := Int.ediv_add_emod (doe - doe / 1460 + doe / 36524 - doe / 146096) 365
      have hr0 := Int.emod_nonneg (doe - doe / 1460 + doe / 36524 - doe / 146096)
        (by decide : (365 : Int) ≠ 0)
      have hr1 := Int.emod_lt_of_pos (doe - doe / 1460 + doe / 36524 - doe / 146096)
        (by decide : (0 : Int) < 365)
      generalize (doe - doe / 1460 + doe / 36524 - doe / 146096) % 365 = ry at hrel hr0 hr1
      generalize (doe - doe / 1460 + doe / 36524 - doe / 146096) / 365 = yoe
        at hy0 hy1 hyoe hrel ⊢
      rcases eq_or_lt_of_le hyoe with hq | hq
      · subst hq
        split_ifs <;> omega
      · split_ifs <;> omega
    · split_ifs <;> omega
  · rcases eq_or_lt_of_le hera2 with he | he
    · subst he
      have hdoe : doe ≤ 17471 := by omega
      have hyoe : (doe - doe / 1460 + doe / 36524 - doe / 146096) / 365 ≤ 47 := by omega
      have hrel := Int.ediv_add_emod (doe - doe / 1460 + doe / 36524 - doe / 146096) 365
      have hr0 := Int.emod_nonneg (doe - doe / 1460 + doe / 36524 - doe / 146096)
        (by decide : (365 : Int) ≠ 0)
      have hr1 := Int.emod_lt_of_pos (doe - doe / 1460 + doe / 36524 - doe / 146096)
        (by decide : (0 : Int) < 365)
      generalize (doe - doe / 1460 + doe / 36524 - doe / 146096) % 365 = ry at hrel hr0 hr1
      generalize (doe - doe / 1460 + doe / 36524 - doe / 146096) / 365 = yoe
        at hy0 hy1 hyoe hrel ⊢
      rcases eq_or_lt_of_le hyoe with hq | hq
      · subst hq
        split_ifs <;> omega
      · split_ifs <;> omega
    · split_ifs <;> omega

theorem gmtime_of_range (t : Int) (hlo : -67768040609740800 ≤ t)
    (hhi : t ≤ 67767976233532799) :
    gmtime t = some (broken_down_time t) ∧
    wrap_int ((broken_down_time t).tm_year + 1900) = (broken_down_time t).tm_year + 1900 := by
  obtain ⟨h1, h2⟩ := broken_down_time_year t hlo hhi
  constructor
  · unfold gmtime
    simp only
    rw [if_pos ⟨h1, by omega⟩]
  · exact wrap_int_of_range _ (by omega) h2

/-- Counterexample to C5: with dive number 5 and a location of 80 characters the
title is cut to the 79 characters the buffer holds, not "Dive #5 - " followed
by the whole location. -/
theorem show_dive_info_title_location_counterexample :
    (show_dive_info weekday_sample sample_form
        (some { sample_dive with location := some long_location })).map (fun s => s.title) =
      some ("Dive #5 - " ++ String.mk (List.replicate 69 'a')) ∧
    (show_dive_info weekday_sample sample_form
        (some { sample_dive with location := some long_location })).map (fun s => s.title) ≠
      some ("Dive #" ++ fmt_d 5 ++ " - " ++ long_location) := by
  constructor <;> decide

/-- C5 (amended): for a dive with a non-empty location `L` and number `N` the
title is the first 79 characters of "Dive #N - L" when `N` is not 0 and the
first 69 characters of `L` when `N` is 0; it is the whole text whenever that
fits, so number 0 with location "Reef" gives "Reef". -/
theorem show_dive_info_title_location (weekday : Int → String) (ui : info_state)
    (d : dive) (L : String) (hL : d.location = some L) (hne : L ≠ "") :
    (d.number ≠ 0 →
      (show_dive_info weekday ui (some d)).map (fun s => s.title) =
        some (String.mk (("Dive #" ++ fmt_d d.number ++ " - " ++ L).data.take 79))) ∧
    (d.number ≠ 0 → ("Dive #" ++ fmt_d d.number ++ " - " ++ L).length ≤ 79 →
      (show_dive_info weekday ui (some d)).map (fun s => s.title) =
        some ("Dive #" ++ fmt_d d.number ++ " - " ++ L)) ∧
    (d.number = 0 →
      (show_dive_info weekday ui (some d)).map (fun s => s.title) =
        some (String.mk (L.data.take 69))) ∧
    (d.number = 0 → L.length ≤ 69 →
      (show_dive_info weekday ui (some d)).map (fun s => s.title) = some L) := by
  have hd : L.data ≠ [] := by
    intro h
    exact hne (String.ext h)
  have key : ∀ n : Int, n = d.number →
      (show_dive_info weekday ui (some d)).map (fun s => s.title) =
        some (if n = 0 then
            String.mk ((snprintf 80 ("Dive #" ++ fmt_d n ++ " - " ++ L)).data.drop 10)
          else snprintf 80 ("Dive #" ++ fmt_d n ++ " - " ++ L)) := by
    intro n hn
    subst hn
    simp [show_dive_info, hL, hd]
  have zero : String.mk ((snprintf 80 ("Dive #" ++ fmt_d 0 ++ " - " ++ L)).data.drop 10) =
      String.mk (L.data.take 69) := by
    have e : ("Dive #" ++ fmt_d 0 ++ " - " ++ L).data = "Dive #0 - ".data ++ L.data := by
      simp only [String.data_append]
      rfl
    simp only [snprintf, e, List.drop_take]
    congr 1
  refine ⟨?_, ?_, ?_, ?_⟩
  · intro h
    rw [key d.number rfl, if_neg h]
    rfl
  · intro h hlen
    rw [key d.number rfl, if_neg h, snprintf_of_length_lt _ _ (by omega)]
  · intro h
    rw [key 0 h.symm, if_pos rfl, zero]
  · intro h hlen
    rw [key 0 h.symm, if_pos rfl, zero]
    congr 1
    apply String.ext
    exact List.take_of_length_le (by simp only [String.length] at hlen; omega)

/-- Witness of C5 (amended): number 0 with location "Reef" gives "Reef". -/
theorem show_dive_info_title_location_witness :
    (show_dive_info weekday_sample sample_form
      (some { sample_dive with number := 0, location := some "Reef" })).map
        (fun s => s.title) = some "Reef" :=
  (show_dive_info_title_location weekday_sample sample_form
    { sample_dive with number := 0, location := some "Reef" } "Reef" rfl (by decide)).2.2.2
    rfl (by decide)

/-- Counterexample to C6: dive number 5 of 1 January 1970, 00:00 UTC, without
location gets the title "Dive #5 - Thu 01/01/1970 at 0:00", month and day
padded with a zero, not "Dive #5 - Thu 1/1/1970 at 0:00".  Nor does every
timestamp give a title with its date: one second after the year 2147483647 the
`int` sum `tm_year + 1900` comes out as -2147483648, and one second before the
year -2147481748 `gmtime` returns `NULL`, which the date branch reads through. -/
theorem show_dive_info_title_date_counterexample :
    (show_dive_info weekday_sample sample_form (some sample_dive)).map (fun s => s.title) =
      some "Dive #5 - Thu 01/01/1970 at 0:00" ∧
    title_plain_date weekday_sample sample_dive = "Dive #5 - Thu 1/1/1970 at 0:00" ∧
    (show_dive_info weekday_sample sample_form (some sample_dive)).map (fun s => s.title) ≠
      some (title_plain_date weekday_sample sample_dive) ∧
    (show_dive_info weekday_sample sample_form
        (some { sample_dive with when := 67767976233532800 })).map (fun s => s.title) =
      some "Dive #5 - Wed 01/01/-2147483648 at 0:00" ∧
    (broken_down_time 67767976233532800).tm_year + 1900 = 2147483648 ∧
    show_dive_info weekday_sample sample_form
      (some { sample_dive with when := -67768040609740801 }) = none := by
  refine ⟨by decide, by decide, by decide, by decide, by decide, by decide⟩

/-- C6 (amended): for a dive with number `N` not 0, an empty or absent location
and a timestamp from -67768040609740800 to 67767976233532799 (the years
-2147481748 to 2147483647) the title is the first 79 characters of
"Dive #N - ", the weekday name, a space, month/day/year with month and day
zero-padded to two digits and the year to four, " at ", and the time H:MM with
the minute zero-padded to two digits, all from the timestamp in UTC; it is that
whole text whenever it has at most 79 characters. -/
theorem show_dive_info_title_date (weekday : Int → String) (ui : info_state)
    (d : dive) (hN : d.number ≠ 0) (hL : d.location = none ∨ d.location = some "")
    (hlo : -67768040609740800 ≤ d.when) (hhi : d.when ≤ 67767976233532799) :
    (show_dive_info weekday ui (some d)).map (fun s => s.title) =
      some (String.mk ((title_padded_date weekday d).data.take 79)) ∧
    ((title_padded_date weekday d).length ≤ 79 →
      (show_dive_info weekday ui (some d)).map (fun s => s.title) =
        some (title_padded_date weekday d)) := by
  obtain ⟨hg, hw⟩ := gmtime_of_range d.when hlo hhi
  have key : (show_dive_info weekday ui (some d)).map (fun s => s.title) =
      some (snprintf 80 (title_padded_date weekday d)) := by
    rcases hL with h | h <;> simp [show_dive_info, h, hN, title_padded_date, hg, hw]
  refine ⟨?_, ?_⟩
  · rw [key]; rfl
  · intro hlen
    rw [key, snprintf_of_length_lt _ _ (by omega)]

/-- Witness of C6 (amended): the sample dive, number 5, 1 January 1970. -/
theorem show_dive_info_title_date_witness :
    (show_dive_info weekday_sample sample_form (some sample_dive)).map (fun s => s.title) =
      some "Dive #5 - Thu 01/01/1970 at 0:00" :=
  ((show_dive_info_title_date weekday_sample sample_form sample_dive (by decide)
    (Or.inl rfl) (by decide) (by decide)).2 (by decide)).trans (by decide)

/-! ## Nitrox column -/

theorem round_half_even_natCast (n : Nat) : round_half_even (n : ℚ) = (n : Int) := by
  have h : Int.floor ((n : ℚ)) = (n : Int) := by
    have : ((n : ℚ)) = (((n : Int)) : ℚ) := by simp
    rw [this, Int.floor_intCast]
  simp [round_half_even, h]

theorem fmt_f_tenths (v : Nat) (q : ℚ) (hq : 0 ≤ q)
    (hr : round_half_even (q * 10) = (v : Int)) :
    fmt_f 0 1 q = Nat.repr (v / 10) ++ "." ++ Nat.repr (v % 10) := by
  have h1 : |q| * (10 : ℚ) ^ 1 = q * 10 := by
    rw [abs_of_nonneg hq]; ring
  have h2 : ¬ (q < 0) := not_lt.mpr hq
  have h3 : (Nat.repr (v % 10)).length = 1 := repr_length_small _ (Nat.mod_lt _ (by decide))
  unfold fmt_f
  simp only [h1, hr, Int.natAbs_ofNat, h2, if_false]
  apply String.ext
  simp [h3]

/-- The quotient `v / 10.0` of an `int` `v > 0`, a `double`, is so close to the
exact tenth that its ten-fold rounds to `v`. -/
theorem double_div_tenths (v : Nat) (h0 : 0 < v) (h1 : v ≤ 2147483647) :
    0 ≤ double_div (v : ℚ) 10 ∧ round_half_even (double_div (v : ℚ) 10 * 10) = (v : Int) := by
  have hv : (0 : ℚ) < (v : ℚ) := by exact_mod_cast h0
  have hv1 : (v : ℚ) ≤ 2147483647 := by exact_mod_cast h1
  have hp : (0 : ℚ) < (v : ℚ) / 10 := by positivity
  have n := round_to_double_near ((v : ℚ) / 10)
  rw [abs_of_pos hp, abs_le] at n
  have e : (v : ℚ) / 10 / 2 ^ 53 = (v : ℚ) * (1 / 90071992547409920) := by
    norm_num [div_eq_mul_inv]; ring
  rw [e] at n
  unfold double_div
  refine ⟨le_of_lt (round_to_double_pos _ hp), ?_⟩
  apply round_half_even_eq_of_near
  rw [abs_lt]
  push_cast
  constructor <;> nlinarith [n.1, n.2]

/-- C8: the value 0 gives "air"; a value `v` of `1 .. INT_MAX` gives the numeral
of `v / 10`, a point and the digit `v % 10`; 320 gives "32.0" and 5 gives
"0.5". -/
theorem nitrox_data_func_spec :
    nitrox_data_func 0 = some "air" ∧
    (∀ v : Nat, 0 < v → v ≤ 2147483647 →
      nitrox_data_func (v : Int) =
        some (Nat.repr (v / 10) ++ "." ++ Nat.repr (v % 10))) ∧
    nitrox_data_func 320 = some "32.0" ∧
    nitrox_data_func 5 = some "0.5" := by
  have gen : ∀ v : Nat, 0 < v → v ≤ 2147483647 →
      nitrox_data_func (v : Int) =
        some (Nat.repr (v / 10) ++ "." ++ Nat.repr (v % 10)) := by
    intro v h0 h1
    have hv : ((v : Int)) ≠ 0 := by exact_mod_cast (Nat.pos_iff_ne_zero.mp h0)
    have hc : (((v : Int)) : ℚ) = (v : ℚ) := by simp
    obtain ⟨hq, hr⟩ := double_div_tenths v h0 h1
    unfold nitrox_data_func
    rw [if_pos hv, hc, fmt_f_tenths v _ hq hr, snprintf_of_length_lt]
    have a := Nat.repr_length (v / 10) 10 (by decide) (by omega)
    have b : (Nat.repr (v % 10)).length = 1 :=
      repr_length_small _ (Nat.mod_lt _ (by decide))
    have c : ".".length = 1 := by decide
    simp only [String.length_append, b, c]
    omega
  refine ⟨by simp [nitrox_data_func], gen, ?_, ?_⟩
  · exact (gen 320 (by decide) (by decide)).trans (by decide)
  · exact (gen 5 (by decide) (by decide)).trans (by decide)

/-- Witness of C8 at 209 permille. -/
theorem nitrox_data_func_spec_witness :
    (0 < 209 ∧ 209 ≤ 2147483647) ∧ nitrox_data_func ((209 : Nat) : Int) = some "20.9" :=
  ⟨by decide, (nitrox_data_func_spec.2.1 209 (by decide) (by decide)).trans (by decide)⟩

/-! ## Location and cylinder columns -/

/-- C10: `get_string` returns the first `min (length s) 40` characters of `s`
(`NULL` read as the empty string): a prefix of `s`, `s` itself when it has at
most 40 characters and its first 40 characters otherwise, and a text that
`get_string` leaves as it is; `get_location` applies it to the location and
`get_cylinder` to the description of the first cylinder. -/
theorem get_string_spec :
    (∀ s : Option String,
      (get_string s).length = min (s.getD "").length 40 ∧
      (get_string s).data <+: (s.getD "").data ∧
      ((s.getD "").length ≤ 40 → get_string s = s.getD "") ∧
      (40 < (s.getD "").length → get_string s = String.mk ((s.getD "").data.take 40)) ∧
      get_string (some (get_string s)) = get_string s) ∧
    (∀ d : dive, get_location d = get_string d.location) ∧
    (∀ (d : dive) (c : cylinder_t) (rest : List cylinder_t), d.cylinder = c :: rest →
      get_cylinder d = get_string c.type.description) := by
  have form : ∀ s : Option String,
      get_string s = String.mk ((s.getD "").data.take (min (s.getD "").length 40)) := by
    intro s
    cases s with
    | none => rfl
    | some t =>
      simp only [get_string, Option.getD_some]
      by_cases h : t.length > 40
      · rw [if_pos h, Nat.min_eq_right (by omega)]
      · rw [if_neg h, Nat.min_eq_left (by omega)]
  refine ⟨?_, fun _ => rfl, ?_⟩
  · intro s
    have f := form s
    generalize s.getD "" = t at f
    have len : (get_string s).length = min t.length 40 := by
      rw [f]
      simp only [String.length, List.length_take]
      omega
    refine ⟨len, ?_, ?_, ?_, ?_⟩
    · rw [f]; exact List.take_prefix _ _
    · intro h
      rw [f]
      apply String.ext
      exact List.take_of_length_le (by simp only [String.length] at h ⊢; omega)
    · intro h
      rw [f, Nat.min_eq_right (by omega)]
    · rw [form (some (get_string s))]
      simp only [Option.getD_some, len]
      apply String.ext
      exact List.take_of_length_le (by simp only [String.length] at len ⊢; omega)
  · intro d c rest h
    simp [get_cylinder, h]

/-- Witness of C10: the first cylinder of the sample dive. -/
theorem get_string_spec_witness :
    get_cylinder sample_dive = get_string (some "AL80") :=
  get_string_spec.2.2 sample_dive _ _ rfl

/-! ## Duration column -/

theorem repr_small (n : Nat) (h : n < 10) : Nat.repr n = String.mk [Nat.digitChar n] := by
  simp [Nat.repr, List.asString, toDigits_small n h]

theorem repr_two (n : Nat) (h1 : 10 ≤ n) (h2 : n < 100) :
    Nat.repr n = String.mk [Nat.digitChar (n / 10), Nat.digitChar (n % 10)] := by
  simp [Nat.repr, List.asString, toDigits_step n h1, toDigits_small (n / 10) (by omega)]

theorem fmt_0d_two (k : Nat) (h : k < 100) :
    fmt_0d 2 (k : Int) = String.mk [Nat.digitChar (k / 10), Nat.digitChar (k % 10)] := by
  have hneg : ¬ ((k : Int) < 0) := by omega
  by_cases hk : k < 10
  · have e0 : k / 10 = 0 := by omega
    have e1 : k % 10 = k := by omega
    simp only [fmt_0d, hneg, if_false, Int.natAbs_ofNat, repr_length_small k hk,
      repr_small k hk, e0, e1]
    rfl
  · simp only [fmt_0d, hneg, if_false, Int.natAbs_ofNat,
      repr_length_two k (by omega) h, repr_two k (by omega) h]
    rfl

theorem int_of_unsigned_small (u : Nat) (h : u < 2147483648) :
    int_of_unsigned u = (u : Int) := by
  have e : u % 4294967296 = u := Nat.mod_eq_of_lt (by omega)
  simp [int_of_unsigned, e, h]

theorem digitChar_injective (a b : Nat) (ha : a < 10) (hb : b < 10)
    (h : Nat.digitChar a = Nat.digitChar b) : a = b := by
  have := congrArg digit_value h
  rwa [digit_value_digitChar a ha, digit_value_digitChar b hb] at this

theorem duration_text (s : Nat) (h : s < 4294967296) :
    duration_data_func s =
      some (Nat.repr (s / 60) ++ ":" ++
        String.mk [Nat.digitChar (s % 60 / 10), Nat.digitChar (s % 60 % 10)]) := by
  have e : s % 4294967296 = s := Nat.mod_eq_of_lt h
  have hm : s % 60 < 60 := Nat.mod_lt _ (by decide)
  simp only [duration_data_func, e]
  rw [int_of_unsigned_small _ (by omega), int_of_unsigned_small _ (by omega),
    fmt_d_of_nonneg, fmt_0d_two _ (by omega), snprintf_of_length_lt]
  have a := Nat.repr_length (s / 60) 8 (by decide) (by omega)
  have c : ":".length = 1 := by decide
  simp only [String.length_append, c]
  simp only [String.length, List.length_cons, List.length_nil] at a ⊢
  omega

/-- C9: a duration `s` below `2 ^ 32` seconds is shown as the numeral of
`s / 60`, a colon and `s % 60` as exactly two digits; the seconds part is below
60, `60 * (s / 60) + s % 60` is `s`, and two different durations never get the
same text. -/
theorem duration_data_func_spec :
    (∀ s : Nat, s < 4294967296 →
      duration_data_func s =
        some (Nat.repr (s / 60) ++ ":" ++
          String.mk [Nat.digitChar (s % 60 / 10), Nat.digitChar (s % 60 % 10)]) ∧
      s % 60 < 60 ∧ 60 * (s / 60) + s % 60 = s) ∧
    (∀ s1 s2 : Nat, s1 < 4294967296 → s2 < 4294967296 →
      duration_data_func s1 = duration_data_func s2 → s1 = s2) := by
  refine ⟨fun s h => ⟨duration_text s h, Nat.mod_lt _ (by decide), by omega⟩, ?_⟩
  intro s1 s2 h1 h2 heq
  rw [duration_text s1 h1, duration_text s2 h2] at heq
  have hs := congrArg String.data (Option.some.inj heq)
  simp only [String.data_append] at hs
  rw [List.append_assoc, List.append_assoc] at hs
  obtain ⟨hmin, hsec⟩ := List.append_inj' hs (by simp)
  have em : s1 / 60 = s2 / 60 := repr_injective _ _ (String.ext hmin)
  have hcons : [Nat.digitChar (s1 % 60 / 10), Nat.digitChar (s1 % 60 % 10)] =
      [Nat.digitChar (s2 % 60 / 10), Nat.digitChar (s2 % 60 % 10)] := by
    have := List.append_inj' hsec (by simp)
    exact this.2
  simp only [List.cons.injEq, and_true] at hcons
  have t1 := digitChar_injective _ _ (by omega) (by omega) hcons.1
  have t2 := digitChar_injective _ _ (by omega) (by omega) hcons.2
  omega

/-- Witness of C9 at 3725 seconds. -/
theorem duration_data_func_spec_witness :
    (3725 : Nat) < 4294967296 ∧ duration_data_func 3725 = some "62:05" :=
  ⟨by decide, ((duration_data_func_spec.1 3725 (by decide)).1).trans (by decide)⟩

/-! ## Gas consumption: the worked example -/

/-- C11: for a dive whose first cylinder has size 2000 ml, start pressure
200000 mbar and end pressure 50000 mbar, every other slot having size 0, with
mean depth 10000 mm and duration 1200 s, the air use is within 0.1 of 296.0
litres, the mean pressure is exactly 2 atm and `get_sac` is 7401, within 2 of
7400 ml/min. -/
theorem get_sac_example (d : dive) (c : cylinder_t) (rest : List cylinder_t)
    (hcyl : d.cylinder = c :: rest) (hsize : c.type.size.mliter = 2000)
    (hstart : c.start.mbar = 200000) (hend : c.end_.mbar = 50000)
    (hrest : ∀ r ∈ rest, r.type.size.mliter = 0)
    (hmean : d.meandepth.mm = 10000) (hdur : d.duration.seconds = 1200) :
    |calculate_airuse d - 296| ≤ 1 / 10 ∧
    (1 + (d.meandepth.mm : ℚ) / 10000 = 2) ∧
    get_sac d = 7401 ∧
    |get_sac d - 7400| ≤ 2 := by
  have hair : calculate_airuse d = 1302160328972317 / 4398046511104 := by
    rw [calculate_airuse_eq, airuse_rounded_single d c rest hcyl (by rw [hsize]; decide) hrest]
    have e : airuse_term c = double_mul (double_div 150000 1013250) 2000 := by
      unfold airuse_term
      rw [hsize, hstart, hend]
      norm_num [wrap_int]
    rw [e, sample_airuse_value]
  have hsac : get_sac d = 7401 := by
    unfold get_sac
    rw [hair, hmean, hdur]
    have hm : (((10000 : Int)) : ℚ) = 10000 := by norm_num
    have hd : (((1200 : Int)) : ℚ) = 1200 := by norm_num
    simp only [hm, hd]
    rw [if_neg (by norm_num), if_neg (by decide),
      if_neg (by rw [mean_pressure_ten_metres]; norm_num), sample_sac_value]
    norm_num [double_to_int]
  refine ⟨?_, ?_, hsac, ?_⟩
  · rw [hair, abs_le]
    constructor <;> norm_num
  · rw [hmean]; norm_num
  · rw [hsac]; decide

/-- Witness of C11: the sample dive carries exactly these values. -/
theorem get_sac_example_witness :
    get_sac sample_dive = 7401 ∧ |get_sac sample_dive - 7400| ≤ 2 :=
  ⟨(get_sac_example sample_dive _ [] rfl rfl rfl rfl (by simp) rfl rfl).2.2.1,
    (get_sac_example sample_dive _ [] rfl rfl rfl rfl (by simp) rfl rfl).2.2.2⟩

/-! ## Depth column: rounding to tenths of a metre -/

/-- C17 (the code at the failing input): called without a record,
`show_dive_info` reads `dive->when` and `dive->location` through the `NULL`
pointer before it reaches the guarded lines that would clear the four fields;
no state results. -/
theorem show_dive_info_null (weekday : Int → String) (ui : info_state) :
    show_dive_info weekday ui none = none := by
  rfl

/-! ## SAC column -/

theorem pad_two_digits (k : Nat) (h : k < 100) :
    String.mk (List.replicate (2 - (Nat.repr k).length) '0') ++ Nat.repr k =
      String.mk [Nat.digitChar (k / 10), Nat.digitChar (k % 10)] := by
  by_cases hk : k < 10
  · have e0 : k / 10 = 0 := by omega
    have e1 : k % 10 = k := by omega
    simp only [repr_length_small k hk, repr_small k hk, e0, e1]
    rfl
  · simp only [repr_length_two k (by omega) h, repr_two k (by omega) h]
    rfl

theorem fmt_f_one (w : Nat) (q : ℚ) (r : Nat)
    (hr : round_half_even (|q| * (10 : ℚ) ^ 1) = (r : Int)) :
    fmt_f w 1 q =
      String.mk (List.replicate
        (w - ((if q < 0 then "-" else "") ++ Nat.repr (r / 10) ++ "." ++
          String.mk [Nat.digitChar (r % 10)]).length) ' ') ++
      ((if q < 0 then "-" else "") ++ Nat.repr (r / 10) ++ "." ++
        String.mk [Nat.digitChar (r % 10)]) := by
  have h3 : (Nat.repr (r % 10)).length = 1 := repr_length_small _ (Nat.mod_lt _ (by decide))
  have h4 : Nat.repr (r % 10) = String.mk [Nat.digitChar (r % 10)] :=
    repr_small _ (Nat.mod_lt _ (by decide))
  have e : String.mk (List.replicate (1 - (Nat.repr (r % 10)).length) '0') ++ Nat.repr (r % 10) =
      String.mk [Nat.digitChar (r % 10)] := by
    rw [h3, h4]; rfl
  have hr2 : round_half_even (|q| * 10) = (r : Int) := by simpa using hr
  unfold fmt_f
  simp only [pow_one, hr2, Int.natAbs_ofNat, one_ne_zero, if_false, e, String.append_assoc]

theorem fmt_f_two (w : Nat) (q : ℚ) (r : Nat)
    (hr : round_half_even (|q| * (10 : ℚ) ^ 2) = (r : Int)) :
    fmt_f w 2 q =
      String.mk (List.replicate
        (w - ((if q < 0 then "-" else "") ++ Nat.repr (r / 100) ++ "." ++
          String.mk [Nat.digitChar (r % 100 / 10), Nat.digitChar (r % 100 % 10)]).length) ' ') ++
      ((if q < 0 then "-" else "") ++ Nat.repr (r / 100) ++ "." ++
        String.mk [Nat.digitChar (r % 100 / 10), Nat.digitChar (r % 100 % 10)]) := by
  have e := pad_two_digits (r % 100) (Nat.mod_lt _ (by decide))
  have p : (10 : Nat) ^ 2 = 100 := by norm_num
  unfold fmt_f
  simp only [hr, Int.natAbs_ofNat, p, OfNat.ofNat_ne_zero, if_false, e, String.append_assoc]

theorem pad_left_length_le (w : Nat) (body : String) (n : Nat) (hw : w ≤ n)
    (hb : body.length ≤ n) : (pad_left w body).length ≤ n := by
  simp only [pad_left, String.length_append]
  simp only [String.length, List.length_replicate] at hb ⊢
  omega

theorem sac_body_length (s : Bool) (n : Nat) (tail : List Char) (k : Nat)
    (hn : n < 10 ^ k) (hk : 0 < k) :
    ((if s then "-" else "") ++ Nat.repr n ++ "." ++ String.mk tail).length ≤
      1 + k + 1 + tail.length := by
  have a := Nat.repr_length n k hk hn
  have c : ".".length = 1 := by decide
  have m : "-".length = 1 := by decide
  have z : "".length = 0 := by decide
  cases s <;> simp only [String.length_append, c, m, z, Bool.false_eq_true, if_false, if_true] <;>
    simp only [String.length] at a ⊢ <;> omega

theorem int_abs_le_of_cast_lt (N k : Int) (h : |(N : ℚ)| < (k : ℚ) + 1) : |N| ≤ k := by
  have h2 : ((|N| : Int) : ℚ) < ((k + 1 : Int) : ℚ) := by
    push_cast
    exact h
  have h3 : |N| < k + 1 := by exact_mod_cast h2
  omega

theorem liters_per_cuft_value :
    round_to_double (28317 / 1000) = 3985263457757823 / 140737488355328 :=
  round_to_double_of_pos _ _ (-48) 7970526915515646 (by norm_num) (by norm_num) (by norm_num)
    (by norm_num) (by norm_num)

/-- The quotient `value / 1000.0` of an `int`, a `double`, against the exact
thousandth. -/
theorem double_div_thousand (v : Int) (hlo : -2147483648 ≤ v) (hhi : v ≤ 2147483647) :
    |(v : ℚ)| ≤ 2147483648 ∧
    |double_div (v : ℚ) 1000 - (v : ℚ) / 1000| ≤ 1 / 4194304000 ∧
    (double_div (v : ℚ) 1000 < 0 ↔ v < 0) := by
  have habs : |(v : ℚ)| ≤ 2147483648 := by
    rw [abs_le]
    constructor
    · have : ((-2147483648 : Int) : ℚ) ≤ (v : ℚ) := by exact_mod_cast hlo
      push_cast at this; linarith
    · have : (v : ℚ) ≤ ((2147483647 : Int) : ℚ) := by exact_mod_cast hhi
      push_cast at this; linarith
  refine ⟨habs, ?_, ?_⟩
  · have n := round_to_double_near ((v : ℚ) / 1000)
    rw [abs_div, abs_of_pos (by norm_num : (0 : ℚ) < 1000)] at n
    have e : |(v : ℚ)| / 1000 / 2 ^ 53 = |(v : ℚ)| * (1 / 9007199254740992000) := by
      norm_num [div_eq_mul_inv]; ring
    rw [e] at n
    unfold double_div
    refine le_trans n ?_
    nlinarith
  · unfold double_div
    rw [round_to_double_neg_iff]
    constructor
    · intro h
      have : (v : ℚ) < 0 := by linarith
      exact_mod_cast this
    · intro h
      have : (v : ℚ) < 0 := by exact_mod_cast h
      linarith

/-- C12: `sac_data_func` sets the empty text for the value 0 whatever the
volume unit; for an `int` value `v` other than 0 it shows, after the sign and
padded with blanks to four characters, in LITER mode `|v| / 1000` rounded to a
number `r` of tenths as the numeral of `r / 10`, a point and one digit, and in
CUFT mode `|v| / 1000 / 28.317` rounded to a number `r` of hundredths as the
numeral of `r / 100`, a point and two digits. -/
theorem sac_data_func_spec :
    (∀ volume : volume_unit, sac_data_func volume 0 = some "") ∧
    (∀ v : Int, v ≠ 0 → -2147483648 ≤ v → v ≤ 2147483647 →
      ∃ r : Nat, |(r : ℚ) / 10 - abs ((v : ℚ) / 1000)| ≤ 1 / 20 ∧
        sac_data_func volume_unit.LITER v =
          some (pad_left 4 ((if v < 0 then "-" else "") ++ Nat.repr (r / 10) ++ "." ++
            String.mk [Nat.digitChar (r % 10)]))) ∧
    (∀ v : Int, v ≠ 0 → -2147483648 ≤ v → v ≤ 2147483647 →
      ∃ r : Nat, |(r : ℚ) / 100 - abs ((v : ℚ) / 1000 / (28317 / 1000))| ≤ 1 / 200 ∧
        sac_data_func volume_unit.CUFT v =
          some (pad_left 4 ((if v < 0 then "-" else "") ++ Nat.repr (r / 100) ++ "." ++
            String.mk [Nat.digitChar (r % 100 / 10), Nat.digitChar (r % 100 % 10)]))) := by
  refine ⟨?_, ?_, ?_⟩
  · intro volume
    simp [sac_data_func]
  · intro v hv hlo hhi
    obtain ⟨habs, nx, hsign⟩ := double_div_thousand v hlo hhi
    have hq : |(v : ℚ) / 1000| = |(v : ℚ)| / 1000 := by
      rw [abs_div]; norm_num
    have hxv := abs_abs_sub_abs_le_abs_sub (double_div (v : ℚ) 1000) ((v : ℚ) / 1000)
    rw [hq] at hxv
    have hX := le_trans hxv nx
    rw [abs_le] at hX
    have hnn : 0 ≤ |double_div (v : ℚ) 1000| * (10 : ℚ) ^ 1 := by positivity
    obtain ⟨r, hr⟩ := Int.eq_ofNat_of_zero_le (round_half_even_nonneg _ hnn)
    have near := round_half_even_near (|double_div (v : ℚ) 1000| * (10 : ℚ) ^ 1)
    rw [hr, abs_le] at near
    have nr : (((r : Int)) : ℚ) = (r : ℚ) := by simp
    rw [nr] at near
    have hN : abs (100 * (r : Int) - abs v) ≤ 50 := by
      apply int_abs_le_of_cast_lt
      push_cast
      rw [abs_lt]
      constructor <;> linarith [near.1, near.2, hX.1, hX.2]
    have hNq : abs (100 * (r : ℚ) - abs (v : ℚ)) ≤ 50 := by
      have : ((abs (100 * (r : Int) - abs v) : Int) : ℚ) ≤ ((50 : Int) : ℚ) := by
        exact_mod_cast hN
      push_cast at this
      exact this
    rw [abs_le] at hNq
    have rb : r < 21474837 := by
      have : (r : ℚ) < 21474837 := by linarith [hNq.2]
      exact_mod_cast this
    refine ⟨r, ?_, ?_⟩
    · rw [hq, abs_le]
      constructor <;> linarith [hNq.1, hNq.2]
    · have e : sac_data_func volume_unit.LITER v =
          some (snprintf 16 (fmt_f 4 1 (double_div (v : ℚ) 1000))) := by
        simp [sac_data_func, hv]
      rw [e, fmt_f_one 4 _ r hr]
      simp only [hsign]
      rw [← pad_left, snprintf_of_length_lt]
      have l := sac_body_length (decide (v < 0)) (r / 10) [Nat.digitChar (r % 10)] 7
        (by omega) (by decide)
      simp only [decide_eq_true_eq, List.length_cons, List.length_nil] at l
      have := pad_left_length_le 4 _ 10 (by decide) (le_trans l (by norm_num))
      omega
  · intro v hv hlo hhi
    obtain ⟨habs, nx, hsign0⟩ := double_div_thousand v hlo hhi
    have hA := abs_nonneg (v : ℚ)
    rw [abs_le] at nx
    have eq : (v : ℚ) / 1000 / (28317 / 1000) = (v : ℚ) / 28317 := by ring
    have hq : |(v : ℚ) / 1000 / (28317 / 1000)| = |(v : ℚ)| / 28317 := by
      rw [eq, abs_div, abs_of_pos (by norm_num : (0 : ℚ) < 28317)]
    -- the quotient by the constant, before its rounding
    have hy : |double_div (v : ℚ) 1000 / (3985263457757823 / 140737488355328) -
        (v : ℚ) / 28317| ≤ 1 / 100000000000 := by
      have id : double_div (v : ℚ) 1000 / (3985263457757823 / 140737488355328) -
          (v : ℚ) / 28317 =
          (double_div (v : ℚ) 1000 - (v : ℚ) / 1000) *
            (140737488355328 / 3985263457757823) -
          (v : ℚ) * (1 / 4702112722222011412125) := by ring
      have hv2 := abs_le.1 habs
      rw [id, abs_le]
      constructor <;> nlinarith [nx.1, nx.2, hv2.1, hv2.2]
    have hyb : |double_div (v : ℚ) 1000 / (3985263457757823 / 140737488355328)| ≤ 75839 := by
      have t := abs_sub_abs_le_abs_sub
        (double_div (v : ℚ) 1000 / (3985263457757823 / 140737488355328)) ((v : ℚ) / 28317)
      have u : |(v : ℚ) / 28317| = |(v : ℚ)| * (1 / 28317) := by
        rw [abs_div, abs_of_pos (by norm_num : (0 : ℚ) < 28317)]; ring
      rw [u] at t
      nlinarith
    have nz := round_to_double_near
      (double_div (v : ℚ) 1000 / (3985263457757823 / 140737488355328))
    have hz : |double_div (double_div (v : ℚ) 1000) (3985263457757823 / 140737488355328) -
        (v : ℚ) / 28317| ≤ 1 / 10000000000 := by
      unfold double_div at nz hy hyb ⊢
      have e : |round_to_double ((v : ℚ) / 1000) / (3985263457757823 / 140737488355328)| /
          2 ^ 53 =
          |round_to_double ((v : ℚ) / 1000) / (3985263457757823 / 140737488355328)| *
            (1 / 9007199254740992) := by
        norm_num [div_eq_mul_inv]
      rw [e] at nz
      have tri := abs_sub_le
        (round_to_double
          (round_to_double ((v : ℚ) / 1000) / (3985263457757823 / 140737488355328)))
        (round_to_double ((v : ℚ) / 1000) / (3985263457757823 / 140737488355328))
        ((v : ℚ) / 28317)
      nlinarith
    have hxv := abs_abs_sub_abs_le_abs_sub
      (double_div (double_div (v : ℚ) 1000) (3985263457757823 / 140737488355328))
      ((v : ℚ) / 28317)
    have u : |(v : ℚ) / 28317| = |(v : ℚ)| / 28317 := by
      rw [abs_div, abs_of_pos (by norm_num : (0 : ℚ) < 28317)]
    rw [u] at hxv
    have hX := le_trans hxv hz
    rw [abs_le] at hX
    have hnn : 0 ≤ |double_div (double_div (v : ℚ) 1000)
        (3985263457757823 / 140737488355328)| * (10 : ℚ) ^ 2 := by positivity
    obtain ⟨r, hr⟩ := Int.eq_ofNat_of_zero_le (round_half_even_nonneg _ hnn)
    have near := round_half_even_near (|double_div (double_div (v : ℚ) 1000)
        (3985263457757823 / 140737488355328)| * (10 : ℚ) ^ 2)
    rw [hr, abs_le] at near
    have nr : (((r : Int)) : ℚ) = (r : ℚ) := by simp
    rw [nr] at near
    have hN : abs (28317 * (r : Int) - 100 * abs v) ≤ 14158 := by
      apply int_abs_le_of_cast_lt
      push_cast
      rw [abs_lt]
      constructor <;> linarith [near.1, near.2, hX.1, hX.2]
    have hNq : abs (28317 * (r : ℚ) - 100 * abs (v : ℚ)) ≤ 14158 := by
      have : ((abs (28317 * (r : Int) - 100 * abs v) : Int) : ℚ) ≤ ((14158 : Int) : ℚ) := by
        exact_mod_cast hN
      push_cast at this
      exact this
    rw [abs_le] at hNq
    have rb : r < 7583727 := by
      have : (r : ℚ) < 7583727 := by linarith [hNq.2]
      exact_mod_cast this
    have hsign : (double_div (double_div (v : ℚ) 1000)
        (3985263457757823 / 140737488355328) < 0) ↔ (v < 0) := by
      rw [← hsign0]
      unfold double_div
      rw [round_to_double_neg_iff]
      constructor
      · intro h
        by_contra hc
        have : 0 ≤ round_to_double ((v : ℚ) / 1000) / (3985263457757823 / 140737488355328) :=
          div_nonneg (not_lt.mp hc) (by norm_num)
        linarith
      · intro h
        exact div_neg_of_neg_of_pos h (by norm_num)
    refine ⟨r, ?_, ?_⟩
    · rw [hq, abs_le]
      constructor <;> linarith [hNq.1, hNq.2]
    · have e : sac_data_func volume_unit.CUFT v =
          some (snprintf 16 (fmt_f 4 2 (double_div (double_div (v : ℚ) 1000)
            (3985263457757823 / 140737488355328)))) := by
        simp [sac_data_func, hv, liters_per_cuft_value]
      rw [e, fmt_f_two 4 _ r hr]
      simp only [hsign]
      rw [← pad_left, snprintf_of_length_lt]
      have l := sac_body_length (decide (v < 0)) (r / 100)
        [Nat.digitChar (r % 100 / 10), Nat.digitChar (r % 100 % 10)] 5 (by omega) (by decide)
      simp only [decide_eq_true_eq, List.length_cons, List.length_nil] at l
      have := pad_left_length_le 4 _ 10 (by decide) (le_trans l (by norm_num))
      omega

/-- Witness of C12 at 7401 ml/min in LITER mode. -/
theorem sac_data_func_spec_witness :
    ∃ r : Nat, |(r : ℚ) / 10 - abs ((((7401 : Int)) : ℚ) / 1000)| ≤ 1 / 20 ∧
      sac_data_func volume_unit.LITER 7401 =
        some (pad_left 4 ((if (7401 : Int) < 0 then "-" else "") ++ Nat.repr (r / 10) ++ "." ++
          String.mk [Nat.digitChar (r % 10)])) :=
  sac_data_func_spec.2.1 7401 (by decide) (by decide) (by decide)

/-! ## Error notice -/

theorem failed_to_open_text (n : Nat) (h : n ≤ 2147483647) :
    snprintf 256 ("Failed to open " ++ fmt_d (n : Int) ++ " files.") =
      "Failed to open " ++ Nat.repr n ++ " files." := by
  rw [fmt_d_of_nonneg, snprintf_of_length_lt]
  have a := Nat.repr_length n 10 (by decide) (by omega)
  have c1 : "Failed to open ".length = 15 := by decide
  have c2 : " files.".length = 7 := by decide
  simp only [String.length_append, c1, c2]
  omega

theorem report_errors_snoc (errors : List String) (message : String) (s : error_state) :
    report_errors (errors ++ [message]) s =
      report_error (some message) (report_errors errors s) := by
  simp [report_errors, List.foldl_append]

/-- C14: `report_error (NULL)` changes nothing; starting without a notice,
after `n ≥ 1` errors (at most `INT_MAX`) are reported with no dismissal in
between, `main_vbox` holds exactly one notice, `error_info_bar` points to it,
`error_count` is `n`, and the notice text is the first message when `n = 1` and
"Failed to open n files." when `n ≥ 2`. -/
theorem report_error_spec :
    (∀ s : error_state, report_error none s = s) ∧
    (∀ (count : Int) (first : String) (rest : List String),
      rest.length + 1 ≤ 2147483647 →
      report_errors (first :: rest)
          { main_vbox := [], error_info_bar := none, error_count := count } =
        { main_vbox :=
            [if rest.length + 1 = 1 then first
             else "Failed to open " ++ Nat.repr (rest.length + 1) ++ " files."]
          error_info_bar := some 0
          error_count := ((rest.length + 1 : Nat) : Int) }) := by
  refine ⟨fun _ => rfl, ?_⟩
  intro count first rest
  induction rest using List.reverseRecOn with
  | nil =>
    intro _
    simp [report_errors, report_error]
  | append_singleton l a ih =>
    intro hlen
    have hl : l.length + 1 ≤ 2147483647 := by
      simp only [List.length_append, List.length_singleton] at hlen
      omega
    have hn : l.length + 2 ≤ 2147483647 := by
      simp only [List.length_append, List.length_singleton] at hlen
      omega
    rw [← List.cons_append, report_errors_snoc, ih hl]
    have hc : ((l.length + 1 : Nat) : Int) + 1 = ((l.length + 2 : Nat) : Int) := by
      push_cast; ring
    have t := failed_to_open_text (l.length + 2) hn
    simp only [report_error, hc, t, List.set_cons_zero, List.length_append,
      List.length_singleton]
    have ne : ¬ (l.length + 1 + 1 = 1) := by omega
    simp only [ne, if_false]

/-- Witness of C14: three errors in a row. -/
theorem report_error_spec_witness :
    report_errors ["a.xml: no such file", "b.xml: not XML", "c.xml: empty"]
        { main_vbox := [], error_info_bar := none, error_count := 0 } =
      { main_vbox := ["Failed to open 3 files."]
        error_info_bar := some 0
        error_count := 3 } :=
  (report_error_spec.2 0 "a.xml: no such file" ["b.xml: not XML", "c.xml: empty"]
    (by decide)).trans (by decide)

/-! ## The list store -/

theorem fill_dive_list_loop_append (mem : Nat → dive) (ps : List Nat) :
    ∀ (i : Int) (store : List row),
      fill_dive_list_loop mem ps i store = store ++ fill_dive_list_loop mem ps i [] := by
  induction ps with
  | nil => intro i store; simp [fill_dive_list_loop]
  | cons p rest ih =>
    intro i store
    simp only [fill_dive_list_loop, List.nil_append]
    rw [ih (i + 1) (store ++ [fill_dive_list_row i (mem p)]),
      ih (i + 1) [fill_dive_list_row i (mem p)], List.append_assoc]

theorem fill_dive_list_loop_length (mem : Nat → dive) (ps : List Nat) :
    ∀ i : Int, (fill_dive_list_loop mem ps i []).length = ps.length := by
  induction ps with
  | nil => intro i; simp [fill_dive_list_loop]
  | cons p rest ih =>
    intro i
    simp only [fill_dive_list_loop, List.nil_append]
    rw [fill_dive_list_loop_append, List.length_append, ih (i + 1)]
    simp [Nat.add_comm]

theorem fill_dive_list_loop_getElem (mem : Nat → dive) (ps : List Nat) :
    ∀ (i : Int) (j : Nat),
      (fill_dive_list_loop mem ps i [])[j]? =
        (ps[j]?).map (fun p => fill_dive_list_row (i + (j : Int)) (mem p)) := by
  induction ps with
  | nil => intro i j; simp [fill_dive_list_loop]
  | cons p rest ih =>
    intro i j
    simp only [fill_dive_list_loop, List.nil_append]
    rw [fill_dive_list_loop_append]
    cases j with
    | zero => simp
    | succ k =>
      simp only [List.singleton_append, List.getElem?_cons_succ]
      rw [ih (i + 1) k]
      have e : i + 1 + (k : Int) = i + ((k + 1 : Nat) : Int) := by push_cast; ring
      rw [e]

theorem foreach_length (f : row → row × Bool) (rows : List row) :
    (gtk_tree_model_foreach f rows).length = rows.length := by
  induction rows with
  | nil => rfl
  | cons r rest ih =>
    simp only [gtk_tree_model_foreach]
    split_ifs <;> simp [ih]

theorem foreach_no_stop (f : row → row × Bool) (rows : List row)
    (h : ∀ r ∈ rows, (f r).2 = false) :
    gtk_tree_model_foreach f rows = rows.map (fun r => (f r).1) := by
  induction rows with
  | nil => rfl
  | cons r rest ih =>
    have hr : (f r).2 = false := h r (List.mem_cons_self _ _)
    simp only [gtk_tree_model_foreach, hr, Bool.false_eq_true, if_false, List.map_cons]
    rw [ih (fun x hx => h x (List.mem_cons_of_mem _ hx))]

theorem get_dive_natCast (dive_table : dive_table_t) (j : Nat) :
    get_dive dive_table (j : Int) = dive_table.dives[j]? := by
  have h : ¬ ((j : Int) < 0) := by omega
  simp [get_dive, h]

theorem set_one_dive_all (dive_table : dive_table_t) (r : row) (j p : Nat)
    (hidx : r.DIVE_INDEX = (j : Int)) (hp : dive_table.dives[j]? = some p) :
    set_one_dive dive_table none r = (fill_one_dive (dive_table.mem p) r, false) := by
  simp [set_one_dive, hidx, get_dive_natCast, hp]
theorem select_first_row (v1 : dive_list_view) :
    (match v1.model with
      | [] => some v1
      | _ :: _ => some { v1 with selection := some 0 }) =
    some { v1 with selection := if v1.model.length = 0 then v1.selection else some 0 } := by
  obtain ⟨model, selection, depth, temperature, title⟩ := v1
  cases model <;> rfl

theorem update_dive_list_units_model (UTF8_DEGREE : String) (output_units : units)
    (dive_table : dive_table_t) (v : dive_list_view)
    (hu : output_units.length ≠ length_unit.other) :
    ∃ v1 : dive_list_view,
      update_dive_list_units UTF8_DEGREE output_units dive_table v = some v1 ∧
      v1.model = gtk_tree_model_foreach (set_one_dive dive_table none) v.model ∧
      v1.selection = v.selection ∧ v1.depth = v.depth ∧ v1.temperature = v.temperature := by
  cases h : output_units.length with
  | METERS =>
    simp only [update_dive_list_units, h]
    exact ⟨_, rfl, rfl, rfl, rfl, rfl⟩
  | FEET =>
    simp only [update_dive_list_units, h]
    exact ⟨_, rfl, rfl, rfl, rfl, rfl⟩
  | other => exact absurd h hu

theorem built_rows_resolve (dive_table : dive_table_t) (r : row)
    (hr : r ∈ fill_dive_list_loop dive_table.mem dive_table.dives 0 []) :
    ∃ j p : Nat, dive_table.dives[j]? = some p ∧
      r = fill_dive_list_row (j : Int) (dive_table.mem p) := by
  obtain ⟨j, hj⟩ := List.mem_iff_getElem?.mp hr
  rw [fill_dive_list_loop_getElem] at hj
  cases hp : dive_table.dives[j]? with
  | none => simp [hp] at hj
  | some p =>
    refine ⟨j, p, hp, ?_⟩
    simp only [hp, Option.map_some', Option.some.injEq, zero_add] at hj
    exact hj.symm

/-- The store after `dive_list_update_dives`: one row per record, row `i` built
by `fill_dive_list` from record `i` and then filled by the row walk. -/
theorem dive_list_update_dives_rows (UTF8_DEGREE : String) (output_units : units)
    (dive_table : dive_table_t) (v : dive_list_view)
    (hu : output_units.length ≠ length_unit.other) :
    ∃ v2 : dive_list_view,
      dive_list_update_dives UTF8_DEGREE output_units dive_table v = some v2 ∧
      v2.model.length = dive_table.dives.length ∧
      (∀ i p : Nat, dive_table.dives[i]? = some p →
        v2.model[i]? = some (fill_one_dive (dive_table.mem p)
          (fill_dive_list_row (i : Int) (dive_table.mem p)))) ∧
      v2.selection = (if dive_table.dives.length = 0 then none else some 0) := by
  obtain ⟨v1, h1, hmodel, hsel, _, _⟩ :=
    update_dive_list_units_model UTF8_DEGREE output_units dive_table
      { v with
        model := fill_dive_list_loop dive_table.mem dive_table.dives 0 []
        selection := none } hu
  simp only at hmodel hsel
  have hall : ∀ r ∈ fill_dive_list_loop dive_table.mem dive_table.dives 0 [],
      (set_one_dive dive_table none r).2 = false := by
    intro r hr
    obtain ⟨j, p, hp, rfl⟩ := built_rows_resolve dive_table r hr
    rw [set_one_dive_all dive_table _ j p rfl hp]
  rw [foreach_no_stop _ _ hall] at hmodel
  have hlen : v1.model.length = dive_table.dives.length := by
    rw [hmodel, List.length_map, fill_dive_list_loop_length]
  refine ⟨{ v1 with selection := if v1.model.length = 0 then v1.selection else some 0 },
    ?_, hlen, ?_, ?_⟩
  · simp only [dive_list_update_dives, fill_dive_list, h1]
    exact select_first_row v1
  · intro i p hp
    simp only
    rw [hmodel, List.getElem?_map, fill_dive_list_loop_getElem, hp]
    simp only [Option.map_some', zero_add]
    rw [set_one_dive_all dive_table _ i p rfl hp]
  · simp only [hlen, hsel]

/-- Counterexample to C15: a record dated 2147483648 (19 January 2038,
03:14:08 UTC) gets a row whose date, an `int`, is -2147483648, not the date of
the record. -/
theorem dive_list_update_dives_date_counterexample :
    ∃ (v2 : dive_list_view) (r : row),
      dive_list_update_dives "" sample_units late_table sample_view = some v2 ∧
      v2.model[0]? = some r ∧
      (late_table.mem 100).when = 2147483648 ∧
      r.DIVE_DATE = -2147483648 ∧
      r.DIVE_DATE ≠ (late_table.mem 100).when := by
  obtain ⟨v2, h, _, hrow, _⟩ :=
    dive_list_update_dives_rows "" sample_units late_table sample_view (by decide)
  exact ⟨v2, _, h, hrow 0 100 rfl, rfl, by decide, by decide⟩

/-- C15 (amended): with a length unit of METERS or FEET, whatever rows the store
held before, after `dive_list_update_dives` it holds as many rows as the
collection has records; row `i` carries `DIVE_INDEX = i`, the date of record
`i` reduced to the 32 bits of an `int` (the date itself when it is in the range
of `int`), the maximum depth, duration, water temperature and first-cylinder
oxygen fraction of record `i` and the location, cylinder and SAC derived from
record `i`; the first row is selected when there is a record and nothing is
selected otherwise. -/
theorem dive_list_update_dives_spec (UTF8_DEGREE : String) (output_units : units)
    (dive_table : dive_table_t) (v : dive_list_view)
    (hu : output_units.length ≠ length_unit.other) :
    ∃ v2 : dive_list_view,
      dive_list_update_dives UTF8_DEGREE output_units dive_table v = some v2 ∧
      v2.model.length = dive_table.dives.length ∧
      (∀ i p : Nat, dive_table.dives[i]? = some p →
        ∃ r : row, v2.model[i]? = some r ∧
          r.DIVE_INDEX = (i : Int) ∧
          r.DIVE_DATE = wrap_int (dive_table.mem p).when ∧
          (-2147483648 ≤ (dive_table.mem p).when → (dive_table.mem p).when ≤ 2147483647 →
            r.DIVE_DATE = (dive_table.mem p).when) ∧
          r.DIVE_DEPTH = (dive_table.mem p).maxdepth ∧
          r.DIVE_DURATION = (dive_table.mem p).duration.seconds ∧
          r.DIVE_TEMPERATURE = (dive_table.mem p).watertemp.mkelvin ∧
          (∀ (c : cylinder_t) (rest : List cylinder_t),
            (dive_table.mem p).cylinder = c :: rest → r.DIVE_NITROX = c.gasmix.o2) ∧
          r.DIVE_LOCATION = some (get_location (dive_table.mem p)) ∧
          r.DIVE_CYLINDER = some (get_cylinder (dive_table.mem p)) ∧
          r.DIVE_SAC = get_sac (dive_table.mem p)) ∧
      v2.selection = (if dive_table.dives.length = 0 then none else some 0) := by
  obtain ⟨v2, h, hlen, hrow, hsel⟩ :=
    dive_list_update_dives_rows UTF8_DEGREE output_units dive_table v hu
  refine ⟨v2, h, hlen, ?_, hsel⟩
  intro i p hp
  refine ⟨_, hrow i p hp, rfl, rfl, ?_, rfl, rfl, rfl, ?_, rfl, rfl, rfl⟩
  · intro h1 h2
    exact wrap_int_of_range _ h1 h2
  · intro c rest hc
    simp [fill_one_dive, fill_dive_list_row, hc]

/-- Witness of C15 (amended): the sample collection of two records in metric
units; the second record, of 2 January 1970, keeps its date. -/
theorem dive_list_update_dives_spec_witness :
    ∃ v2 : dive_list_view,
      dive_list_update_dives "" sample_units sample_table sample_view = some v2 ∧
      v2.model.length = 2 ∧ v2.selection = some 0 ∧
      (v2.model[1]?).map (fun r => r.DIVE_DATE) = some 86400 := by
  obtain ⟨v2, h, hl, hrow, hs⟩ :=
    dive_list_update_dives_spec "" sample_units sample_table sample_view (by decide)
  obtain ⟨r, hr, _, _, hdate, _⟩ := hrow 1 200 rfl
  refine ⟨v2, h, hl, hs, ?_⟩
  rw [hr]
  exact congrArg some (hdate (by decide) (by decide))

/-! ## Refreshing the rows -/

theorem set_one_dive_index (dive_table : dive_table_t) (data : Option Nat) (r : row) :
    (set_one_dive dive_table data r).1.DIVE_INDEX = r.DIVE_INDEX := by
  unfold set_one_dive
  cases get_dive dive_table r.DIVE_INDEX with
  | none => rfl
  | some p =>
    simp only
    split_ifs <;> rfl

theorem set_one_dive_twice (dive_table : dive_table_t) (r : row) :
    set_one_dive dive_table none (set_one_dive dive_table none r).1 =
      set_one_dive dive_table none r := by
  cases h : get_dive dive_table r.DIVE_INDEX with
  | none => simp [set_one_dive, h]
  | some p =>
    have e : set_one_dive dive_table none r = (fill_one_dive (dive_table.mem p) r, false) := by
      simp [set_one_dive, h]
    have hi : (fill_one_dive (dive_table.mem p) r).DIVE_INDEX = r.DIVE_INDEX := rfl
    rw [e]
    simp [set_one_dive, hi, h, fill_one_dive]

theorem foreach_twice (f : row → row × Bool) (h : ∀ r, f (f r).1 = f r) (rows : List row) :
    gtk_tree_model_foreach f (gtk_tree_model_foreach f rows) =
      gtk_tree_model_foreach f rows := by
  induction rows with
  | nil => rfl
  | cons r rest ih =>
    by_cases hs : (f r).2 = true
    · simp only [gtk_tree_model_foreach, hs, if_true, h r]
    · simp only [gtk_tree_model_foreach, hs, if_false, h r, ih, Bool.false_eq_true]

theorem foreach_index (dive_table : dive_table_t) (data : Option Nat) (rows : List row) :
    (gtk_tree_model_foreach (set_one_dive dive_table data) rows).map (fun r => r.DIVE_INDEX) =
      rows.map (fun r => r.DIVE_INDEX) := by
  induction rows with
  | nil => rfl
  | cons r rest ih =>
    simp only [gtk_tree_model_foreach]
    split_ifs <;> simp [set_one_dive_index, ih]

theorem title_twice (title : String → String) (a b x y : String) :
    Function.update (Function.update (Function.update (Function.update title a x) b y) a x) b y =
      Function.update (Function.update title a x) b y := by
  funext c
  by_cases h1 : c = b <;> by_cases h2 : c = a <;> simp [Function.update, h1, h2]

/-- C16: `update_dive_list_units` yields a view for the length units METERS and
FEET; whenever it yields a view, a second call with the same settings and
records yields that same view again (column titles and every row), and the
call changes neither the number of rows, nor any row's `DIVE_INDEX`, nor the
selection. -/
theorem update_dive_list_units_idempotent (UTF8_DEGREE : String) (output_units : units)
    (dive_table : dive_table_t) (v : dive_list_view) :
    (output_units.length ≠ length_unit.other →
      ∃ v1, update_dive_list_units UTF8_DEGREE output_units dive_table v = some v1) ∧
    (∀ v1 : dive_list_view,
      update_dive_list_units UTF8_DEGREE output_units dive_table v = some v1 →
      update_dive_list_units UTF8_DEGREE output_units dive_table v1 = some v1 ∧
      v1.model.length = v.model.length ∧
      v1.model.map (fun r => r.DIVE_INDEX) = v.model.map (fun r => r.DIVE_INDEX) ∧
      v1.selection = v.selection) := by
  constructor
  · intro hu
    obtain ⟨v1, h, _⟩ := update_dive_list_units_model UTF8_DEGREE output_units dive_table v hu
    exact ⟨v1, h⟩
  · intro v1 h1
    have tw := foreach_twice (set_one_dive dive_table none) (set_one_dive_twice dive_table) v.model
    cases h : output_units.length with
    | METERS =>
      simp only [update_dive_list_units, h, Option.some.injEq] at h1
      subst h1
      refine ⟨?_, foreach_length _ _, foreach_index _ _ _, rfl⟩
      simp only [update_dive_list_units, h, tw]
      cases output_units.temperature <;> simp only [title_twice]
    | FEET =>
      simp only [update_dive_list_units, h, Option.some.injEq] at h1
      subst h1
      refine ⟨?_, foreach_length _ _, foreach_index _ _ _, rfl⟩
      simp only [update_dive_list_units, h, tw]
      cases output_units.temperature <;> simp only [title_twice]
    | other =>
      simp [update_dive_list_units, h] at h1

/-- Witness of C16: the sample view in metric units, refreshed twice. -/
theorem update_dive_list_units_idempotent_witness :
    ∃ v1, update_dive_list_units "" sample_units sample_table sample_view = some v1 ∧
      update_dive_list_units "" sample_units sample_table v1 = some v1 := by
  obtain ⟨v1, h⟩ :=
    (update_dive_list_units_idempotent "" sample_units sample_table sample_view).1 (by decide)
  exact ⟨v1, h,
    ((update_dive_list_units_idempotent "" sample_units sample_table sample_view).2 v1 h).1⟩
theorem foreach_stop_at (f : row → row × Bool) (rows : List row) :
    ∀ (k : Nat) (rk : row),
      (∀ (j : Nat) (r : row), j < k → rows[j]? = some r → f r = (r, false)) →
      rows[k]? = some rk → (f rk).2 = true →
      gtk_tree_model_foreach f rows = rows.set k (f rk).1 := by
  induction rows with
  | nil => intro k rk _ hk; simp at hk
  | cons r rest ih =>
    intro k rk hbefore hk hstop
    cases k with
    | zero =>
      simp only [List.getElem?_cons_zero, Option.some.injEq] at hk
      subst hk
      simp [gtk_tree_model_foreach, hstop]
    | succ k =>
      have h0 : f r = (r, false) := hbefore 0 r (by omega) (by simp)
      simp only [List.getElem?_cons_succ] at hk
      have ih2 := ih k rk (fun j x hj hx => hbefore (j + 1) x (by omega) (by simpa using hx))
        hk hstop
      simp [gtk_tree_model_foreach, h0, ih2]

theorem row_index_of_position (n : Nat) (rows : List row)
    (hrows : rows.map (fun r => r.DIVE_INDEX) = (List.range n).map (fun i : Nat => (i : Int)))
    (i : Nat) (r : row) (hr : rows[i]? = some r) :
    r.DIVE_INDEX = (i : Int) ∧ i < n := by
  have h := congrArg (fun l => l[i]?) hrows
  simp only [List.getElem?_map, hr, Option.map_some'] at h
  by_cases hi : i < n
  · rw [List.getElem?_range hi] at h
    simp only [Option.map_some', Option.some.injEq] at h
    exact ⟨h, hi⟩
  · rw [List.getElem?_eq_none (by simp; omega)] at h
    simp at h

theorem nodup_pointer_ne (ps : List Nat) (hn : ps.Nodup) (j k p q : Nat) (hjk : j < k)
    (hj : ps[j]? = some q) (hk : ps[k]? = some p) : q ≠ p := by
  intro e
  have hkl : k < ps.length := (List.getElem?_eq_some.mp hk).1
  have := List.nodup_iff_getElem?_ne_getElem?.mp hn j k hjk hkl
  rw [hj, hk, e] at this
  exact this rfl

/-- C18: for a store whose row `i` carries `DIVE_INDEX = i`, one row per record
of a collection holding each record once, `flush_divelist` for the record at
index `k` sets the location, cylinder and SAC fields of row `k` to the values
derived from that record and leaves everything else of the view as it was, and
`update_dive_list_units`, which yields a view for the length units METERS and
FEET, does the same for every row with the record at that row's index. -/
theorem flush_divelist_spec (UTF8_DEGREE : String) (output_units : units)
    (dive_table : dive_table_t) (v : dive_list_view)
    (hrows : v.model.map (fun r => r.DIVE_INDEX) =
      (List.range dive_table.dives.length).map (fun i : Nat => (i : Int)))
    (hnodup : dive_table.dives.Nodup) :
    (∀ k p : Nat, dive_table.dives[k]? = some p →
      (flush_divelist dive_table (some p) v).model.length = v.model.length ∧
      (∀ (i : Nat) (r : row), v.model[i]? = some r →
        (flush_divelist dive_table (some p) v).model[i]? =
          some (if i = k then
              { r with
                DIVE_LOCATION := some (get_location (dive_table.mem p))
                DIVE_CYLINDER := some (get_cylinder (dive_table.mem p))
                DIVE_SAC := get_sac (dive_table.mem p) }
            else r)) ∧
      (flush_divelist dive_table (some p) v).selection = v.selection ∧
      (flush_divelist dive_table (some p) v).title = v.title) ∧
    (output_units.length ≠ length_unit.other →
      ∃ v1, update_dive_list_units UTF8_DEGREE output_units dive_table v = some v1) ∧
    (∀ v1 : dive_list_view,
      update_dive_list_units UTF8_DEGREE output_units dive_table v = some v1 →
      v1.model.length = v.model.length ∧
      (∀ (i q : Nat) (r : row), v.model[i]? = some r → dive_table.dives[i]? = some q →
        v1.model[i]? =
          some { r with
            DIVE_LOCATION := some (get_location (dive_table.mem q))
            DIVE_CYLINDER := some (get_cylinder (dive_table.mem q))
            DIVE_SAC := get_sac (dive_table.mem q) })) := by
  have hlen : v.model.length = dive_table.dives.length := by
    have := congrArg List.length hrows
    simpa using this
  refine ⟨?_, ?_, ?_⟩
  · intro k p hp
    have hk : k < dive_table.dives.length := (List.getElem?_eq_some.mp hp).1
    obtain ⟨rk, hrk⟩ : ∃ rk, v.model[k]? = some rk :=
      ⟨v.model[k], List.getElem?_eq_getElem (by omega)⟩
    have hik := (row_index_of_position _ _ hrows k rk hrk).1
    have hstop : set_one_dive dive_table (some p) rk =
        (fill_one_dive (dive_table.mem p) rk, true) := by
      simp [set_one_dive, hik, get_dive_natCast, hp]
    have hbefore : ∀ (j : Nat) (r : row), j < k → v.model[j]? = some r →
        set_one_dive dive_table (some p) r = (r, false) := by
      intro j r hj hr
      have hij := (row_index_of_position _ _ hrows j r hr).1
      obtain ⟨q, hq⟩ : ∃ q, dive_table.dives[j]? = some q :=
        ⟨dive_table.dives[j], List.getElem?_eq_getElem (by omega)⟩
      have hne := nodup_pointer_ne _ hnodup j k p q hj hq hp
      simp [set_one_dive, hij, get_dive_natCast, hq, hne]
    have hmodel : (flush_divelist dive_table (some p) v).model =
        v.model.set k (fill_one_dive (dive_table.mem p) rk) := by
      simp only [flush_divelist]
      rw [foreach_stop_at _ _ k rk hbefore hrk (by rw [hstop]), hstop]
    refine ⟨by rw [hmodel, List.length_set], ?_, rfl, rfl⟩
    intro i r hr
    rw [hmodel, List.getElem?_set]
    by_cases hki : k = i
    · subst hki
      rw [hrk] at hr
      simp only [Option.some.injEq] at hr
      subst hr
      simp [hlen, hk, fill_one_dive]
    · have hik2 : ¬ i = k := fun e => hki e.symm
      simp [hki, hik2, hr]
  · intro hu
    obtain ⟨v1, h, _⟩ := update_dive_list_units_model UTF8_DEGREE output_units dive_table v hu
    exact ⟨v1, h⟩
  · intro v1 h1
    have hu : output_units.length ≠ length_unit.other := by
      intro e
      simp [update_dive_list_units, e] at h1
    obtain ⟨v2, h2, hmodel, _⟩ :=
      update_dive_list_units_model UTF8_DEGREE output_units dive_table v hu
    rw [h1] at h2
    simp only [Option.some.injEq] at h2
    subst h2
    have hall : ∀ r ∈ v.model, (set_one_dive dive_table none r).2 = false := by
      intro r hr
      obtain ⟨j, hj⟩ := List.mem_iff_getElem?.mp hr
      obtain ⟨hidx, hjn⟩ := row_index_of_position _ _ hrows j r hj
      rw [set_one_dive_all dive_table r j dive_table.dives[j] hidx
        (List.getElem?_eq_getElem hjn)]
    rw [foreach_no_stop _ _ hall] at hmodel
    refine ⟨by rw [hmodel, List.length_map], ?_⟩
    intro i q r hr hq
    have hidx := (row_index_of_position _ _ hrows i r hr).1
    rw [hmodel, List.getElem?_map, hr, Option.map_some',
      set_one_dive_all dive_table r i q hidx hq]
    rfl

/-- Witness of C18: the sample collection, its rows as `fill_dive_list` appends
them, flushed for the record at index 1. -/
theorem flush_divelist_spec_witness :
    (flush_divelist sample_table (some 200)
      { sample_view with
        model := [fill_dive_list_row 0 (sample_table.mem 100),
          fill_dive_list_row 1 (sample_table.mem 200)] }).model.length = 2 :=
  ((flush_divelist_spec "" sample_units sample_table
    { sample_view with
      model := [fill_dive_list_row 0 (sample_table.mem 100),
        fill_dive_list_row 1 (sample_table.mem 200)] }
    (by decide) (by decide)).1 1 200 (by decide)).1

end Diveclog
